import Mathlib

/-!
# Verification of the content-generation backend

A shallow embedding, in Lean 4, of the Python backend that generates course
content (description, modules, lessons) with an LLM, scores it with heuristic
quality checkers, and persists it in MongoDB, together with its auth component.

External effects are modelled explicitly: LLM responses are oracle parameters,
database state is passed as a value, and each pipeline operation additionally
returns the list of effect events it performed, in order.  Floating-point
scores are modelled as exact rationals; on every comparison the code performs,
the two agree for all attainable score values (the attainable values are
finite sums of halves, tenths and twentieths compared against thresholds that
are far from the accumulated rounding error of IEEE doubles).  String
operations are implemented over `List Char` by structural recursion so that
concrete runs can be evaluated inside the kernel.
-/

namespace ContentGen

/-! ## Python string primitives

Helpers mirroring the Python string operations used by the code: `in`
(substring test), `str.count`, `str.split()` (no argument), `str.split(sep)`,
`str.strip`, `str.lower`, `str.startswith`, `str.join`, `str.replace`. -/

/-- Does `cs` start with `pat`? -/
def listStartsWith : List Char → List Char → Bool
  | _, [] => true
  | [], _ => false
  | c :: cs, p :: ps => c == p && listStartsWith cs ps

/-- Does the (nonempty) pattern `pat` occur in `cs`?  Python `pat in s`. -/
def occursIn (pat : List Char) : List Char → Bool
  | [] => pat == []
  | c :: cs => listStartsWith (c :: cs) pat || occursIn pat cs

/-- Python `pat in s` for strings. -/
def containsSub (s pat : String) : Bool :=
  occursIn pat.data s.data

/-- Index of the first occurrence of `pat` in `cs`, if any. -/
def firstOccurrence (pat : List Char) : List Char → Option Nat
  | [] => if pat == [] then some 0 else none
  | c :: cs =>
    if listStartsWith (c :: cs) pat then some 0
    else (firstOccurrence pat cs).map (· + 1)

/-- Split a character list at every character satisfying `p`,
keeping empty segments (Python `str.split(sep)` shape). -/
def splitOnPred (p : Char → Bool) : List Char → List (List Char)
  | [] => [[]]
  | c :: rest =>
    if p c then [] :: splitOnPred p rest
    else match splitOnPred p rest with
      | seg :: segs => (c :: seg) :: segs
      | [] => [[c]]

/-- Python `s.split('\n')`. -/
def pyLines (s : String) : List String :=
  ((splitOnPred (· == '\n')) s.data).map String.mk

/-- Python `s.split()` with no separator: split on whitespace runs,
dropping empty pieces. -/
def pyWords (s : String) : List String :=
  ((splitOnPred Char.isWhitespace s.data).filter (· ≠ [])).map String.mk

/-- Python `s.count("\n\n")`: non-overlapping occurrences of a double
newline. -/
def countDoubleNewline : List Char → Nat
  | '\n' :: '\n' :: rest => countDoubleNewline rest + 1
  | _ :: rest => countDoubleNewline rest
  | [] => 0

/-- Python `s.split("```")` (the only multi-character split the code does,
in `re.findall(r'```([\s\S]*?)```', content)` form). -/
def splitTicks : List Char → List (List Char)
  | '`' :: '`' :: '`' :: rest => [] :: splitTicks rest
  | c :: rest =>
    match splitTicks rest with
    | seg :: segs => (c :: seg) :: segs
    | [] => [[c]]
  | [] => [[]]

/-- The captured groups of `re.findall(r'```([\s\S]*?)```', content)`:
the odd-indexed pieces of the ```-split that are followed by a closing
delimiter. -/
def tickGroups : List (List Char) → List (List Char)
  | _ :: b :: c :: rest => b :: tickGroups (c :: rest)
  | _ => []

/-- Python `str.strip()` on a character list. -/
def trimChars (cs : List Char) : List Char :=
  ((cs.dropWhile Char.isWhitespace).reverse.dropWhile Char.isWhitespace).reverse

/-- Python `str.strip()`. -/
def pyStrip (s : String) : String :=
  String.mk (trimChars s.data)

/-- Python `s.strip(c)` for a single character. -/
def stripChar (s : String) (c : Char) : String :=
  String.mk (((s.data.dropWhile (· = c)).reverse.dropWhile (· = c)).reverse)

/-- `response.content.strip().strip('"')`, the post-processing applied to raw
LLM description output. -/
def stripWsQuotes (s : String) : String :=
  stripChar (pyStrip s) '"'

/-- Python `str.lower()` (ASCII, which is all the keyword lists use). -/
def pyLower (s : String) : String :=
  String.mk (s.data.map Char.toLower)

/-- Python `sep.join(parts)`. -/
def joinWith (sep : List Char) : List (List Char) → List Char
  | [] => []
  | [x] => x
  | x :: y :: rest => x ++ sep ++ joinWith sep (y :: rest)

/-- Python `"\n".join(parts)` on strings. -/
def joinLines (parts : List String) : String :=
  String.mk (joinWith ['\n'] (parts.map String.data))

/-- Number of leading whitespace characters of a line,
Python `len(line) - len(line.lstrip())`. -/
def leadingWsCount (line : String) : Nat :=
  (line.data.takeWhile Char.isWhitespace).length

/-- Distinct elements in order of first appearance (Python `set(...)` used
only for membership counting and cardinality). -/
def pyDedup {α : Type} [BEq α] (l : List α) : List α :=
  l.foldl (fun acc x => if acc.contains x then acc else acc ++ [x]) []

/-- A Python `\w` word character (ASCII range, which is all the inputs use). -/
def isWordChar (c : Char) : Bool :=
  c.isAlphanum || c == '_'

/-- Truthiness of a Python `Optional[str]`. -/
def optTruthy : Option String → Bool
  | none => false
  | some s => s ≠ ""

/-! ## Effect events

Every pipeline operation returns, besides its result, the ordered list of
external effects it performed. -/

/-- The pipeline stage an LLM call belongs to. -/
inductive Stage
  | description
  | modulegen
  | lesson
  deriving Repr, DecidableEq

/-- The MongoDB collections touched by the course pipeline. -/
inductive Coll
  | courses
  | modules
  | lessons
  deriving Repr, DecidableEq

/-- An external effect performed by the pipeline. -/
inductive Event
  | llm (s : Stage)
  | dbInsert (c : Coll)
  | dbFind (c : Coll)
  deriving Repr, DecidableEq

/-- Is an event an LLM call (of any stage)? -/
def Event.isLlm : Event → Bool
  | .llm _ => true
  | _ => false

/-- Is an event an LLM call of stage `s`? -/
def Event.isLlmOf (s : Stage) : Event → Bool
  | .llm s' => s' == s
  | _ => false

/-- Is an event a database write? -/
def Event.isInsert : Event → Bool
  | .dbInsert _ => true
  | _ => false

/-! ## Course-description quality checking

From `src/ai/course_description_generator/course_description.py`,
class `DescriptionQualityChecker`. -/

/-- The marketing keyword list of `check_description_quality`. -/
def marketingTerms : List String :=
  ["master", "learn", "discover", "develop", "build", "create", "transform", "unlock"]

/-- The technology keyword list of `check_description_quality`. -/
def techTerms : List String :=
  ["javascript", "python", "react", "node", "web", "app", "data", "code",
   "programming", "development"]

/-- Length criterion: 15-50 words and 1-2 nonblank period-separated
sentences. -/
def lengthCriterion (description : String) : Bool :=
  let words := pyWords description
  let sentences := ((splitOnPred (· == '.')) description.data).filter
    (fun s => trimChars s ≠ [])
  15 ≤ words.length && words.length ≤ 50 &&
    1 ≤ sentences.length && sentences.length ≤ 2

/-- Marketing criterion: some marketing term occurs in the lowercased text. -/
def marketingCriterion (description : String) : Bool :=
  marketingTerms.any (fun t => containsSub (pyLower description) t)

/-- Specificity criterion: some technology term occurs in the lowercased
text. -/
def specificityCriterion (description : String) : Bool :=
  techTerms.any (fun t => containsSub (pyLower description) t)

/-- Python `round(x, 2)`.  On the attainable score values none lies at an
exact half of a hundredth, so round-half-even (Python) agrees with Lean's
`round`. -/
def roundTo2 (x : ℚ) : ℚ :=
  ((round (x * 100) : ℤ) : ℚ) / 100

/-- Result of `check_description_quality`. -/
structure DescriptionQualityReport where
  quality_score : ℚ
  passes_threshold : Bool
  feedback_length : String
  feedback_marketing : String
  feedback_specificity : String
  deriving Repr

/-- `DescriptionQualityChecker.check_description_quality`. -/
def check_description_quality (description : String) : DescriptionQualityReport :=
  let length_score : ℚ := if lengthCriterion description then 1 else 1/2
  let marketing_score : ℚ := if marketingCriterion description then 1 else 1/2
  let specificity_score : ℚ := if specificityCriterion description then 1 else 1/2
  let overall_score : ℚ := (length_score + marketing_score + specificity_score) / 3 * 100
  { quality_score := roundTo2 overall_score
    passes_threshold := overall_score ≥ 80
    feedback_length :=
      if length_score ≥ 8/10 then "Good"
      else "Description should be 1-2 concise sentences (15-50 words)"
    feedback_marketing :=
      if marketing_score ≥ 8/10 then "Good"
      else "Add action-oriented terms that motivate learners"
    feedback_specificity :=
      if specificity_score ≥ 8/10 then "Good"
      else "Include specific technologies or skills covered" }

/-- Number of the three description criteria that hold. -/
def descriptionCriteriaMet (description : String) : Nat :=
  (if lengthCriterion description then 1 else 0) +
  (if marketingCriterion description then 1 else 0) +
  (if specificityCriterion description then 1 else 0)

/-- `DescriptionQualityChecker.improve_description`: returns the description
unchanged when all feedback is "Good"; otherwise makes one LLM call and
returns the stripped response, falling back to the original on an LLM
error (`oracle = none`). -/
def improve_description (oracle : Option String) (description : String)
    (report : DescriptionQualityReport) : String × List Event :=
  if report.feedback_length = "Good" ∧ report.feedback_marketing = "Good" ∧
      report.feedback_specificity = "Good" then
    (description, [])
  else
    match oracle with
    | some r => (stripWsQuotes r, [.llm .description])
    | none => (description, [.llm .description])

/-! ## Course-description generation

From `CourseDescriptionGenerator.generate_description` in the same file,
and the request schema `AddNewCourse` of `src/schemas/courses.py`. -/

/-- The `AddNewCourse` request body (`created_at` is a datetime, carried
as its serialized form). -/
structure AddNewCourse where
  course_name : String
  level : String
  image_uri : String
  description : String := ""
  created_at : String
  deriving Repr, DecidableEq

/-- The document `generate_description` builds and `generate_course` inserts
into the courses collection: the structured description plus the
course-level fields added through `add_fields_to_dict`. -/
structure CourseDoc where
  course_id : String
  course_name : String
  level : String
  image_uri : String
  created_at : String
  is_popular : Bool
  is_trending : Bool
  description : String
  deriving Repr, DecidableEq

/-- LLM oracles for the description stage: the raw `response.content` of the
initial generation call, and of the improvement call (`none` models the
improvement call raising, in which case the original text is kept). -/
structure DescriptionOracles where
  llmDescription : String
  llmImprove : Option String

/-- `" ".join(data.description.replace('\r', '').split('\n'))`:
normalization of a user-provided description. -/
def normalizeUserDescription (s : String) : String :=
  String.mk (joinWith [' '] ((splitOnPred (· == '\n')) (s.data.filter (· ≠ '\r'))))

/-- `CourseDescriptionGenerator.generate_description`.  With a nonempty
user-provided description no LLM call happens; otherwise one generation call
is made, the result is quality-checked, and a failing result triggers one
improvement call. -/
def generate_description (o : DescriptionOracles) (data : AddNewCourse)
    (unique_id : String) : CourseDoc × List Event :=
  let (final_description, events) :=
    if data.description ≠ "" then
      (normalizeUserDescription data.description, [])
    else
      let initial := stripWsQuotes o.llmDescription
      let report := check_description_quality initial
      let (final, improveEvents) :=
        if !report.passes_threshold then
          improve_description o.llmImprove initial report
        else
          (initial, [])
      (final, Event.llm .description :: improveEvents)
  ({ course_id := unique_id
     course_name := data.course_name
     level := data.level
     image_uri := data.image_uri
     created_at := data.created_at
     is_popular := false
     is_trending := false
     description := final_description }, events)

/-! ## Module generation

From `src/ai/module_generator/agents/module_generator.py` and
`src/ai/module_generator/graph.py`. -/

/-- A module dict as produced by enhancement.  Fields the model may omit
default to the value `dict.get` supplies at the use sites. -/
structure ModuleData where
  title : String := ""
  description : String := ""
  learning_objectives : List String := []
  key_topics : List String := []
  practical_applications : List String := []
  prerequisites_knowledge : List String := []
  prerequisites_technical : List String := []
  estimated_completion_time : String := ""
  module_id : String := ""
  deriving Repr, DecidableEq

/-- `_check_title_quality`'s word-count condition `4 <= len(title.split()) <= 8`. -/
def titleWordCountOk (title : String) : Bool :=
  4 ≤ (pyWords title).length && (pyWords title).length ≤ 8

/-- The action-verb list of `_check_title_quality`. -/
def actionVerbs : List String :=
  ["build", "create", "develop", "implement", "master", "learn", "understand", "explore"]

/-- `_check_title_quality`'s action-verb condition. -/
def titleHasActionVerb (title : String) : Bool :=
  actionVerbs.any (fun v => containsSub (pyLower title) v)

/-- `ModuleQualityChecker._check_title_quality`. -/
def check_title_quality (title : String) : ℚ :=
  if title = "" then 0
  else
    (if titleWordCountOk title then 1/2 else 3/10) +
    (if titleHasActionVerb title then 1/2 else 1/5)

/-- The technology-word list of `_check_description_quality` (module level). -/
def moduleDescTechWords : List String :=
  ["javascript", "python", "code", "function", "api"]

/-- The learning-value word list of `_check_description_quality`. -/
def moduleDescValueWords : List String :=
  ["learn", "skill", "practice", "understand", "master"]

/-- `ModuleQualityChecker._check_description_quality`. -/
def check_description_quality_module (description : String) : ℚ :=
  if description = "" then 0
  else
    (if 30 ≤ (pyWords description).length then 2/5 else 1/5) +
    (if moduleDescTechWords.any (fun w => containsSub (pyLower description) w)
       then 3/10 else 1/10) +
    (if moduleDescValueWords.any (fun w => containsSub (pyLower description) w)
       then 3/10 else 1/10)

/-- The Bloom's-taxonomy verb list of `_check_learning_objectives`. -/
def bloomVerbs : List String :=
  ["analyze", "apply", "assess", "build", "calculate", "categorize", "compare",
   "compile", "compose", "construct", "create", "critique", "define",
   "demonstrate", "design", "develop", "differentiate", "evaluate", "explain",
   "identify", "implement", "integrate"]

/-- Number of objectives containing some Bloom verb. -/
def bloomObjectiveCount (objectives : List String) : Nat :=
  (objectives.filter (fun o => bloomVerbs.any
    (fun v => containsSub (pyLower o) v))).length

/-- `ModuleQualityChecker._check_learning_objectives`. -/
def check_learning_objectives (objectives : List String) : ℚ :=
  if objectives = [] then 0
  else
    (if 4 ≤ objectives.length && objectives.length ≤ 8 then 3/10 else 1/10) +
    min ((bloomObjectiveCount objectives : ℚ) * (1/10)) (7/10)

/-- Number of topics spelled with at least three words. -/
def longTopicCount (topics : List String) : Nat :=
  (topics.filter (fun t => 3 ≤ (pyWords t).length)).length

/-- `ModuleQualityChecker._check_key_topics`. -/
def check_key_topics (topics : List String) : ℚ :=
  if topics = [] then 0
  else
    (if 6 ≤ topics.length && topics.length ≤ 15 then 2/5 else 1/5) +
    min (3/5) ((longTopicCount topics : ℚ) * (1/20))

/-- The industry-relevance term list of `_check_practical_relevance`. -/
def industryTerms : List String :=
  ["industry", "professional", "workplace", "company", "business",
   "production", "real-world"]

/-- Number of applications mentioning some industry term. -/
def industryAppCount (applications : List String) : Nat :=
  (applications.filter (fun a => industryTerms.any
    (fun t => containsSub (pyLower a) t))).length

/-- `ModuleQualityChecker._check_practical_relevance`. -/
def check_practical_relevance (applications : List String) : ℚ :=
  if applications = [] then 0
  else
    (if 3 ≤ applications.length then 2/5 else 1/5) +
    min (3/5) ((industryAppCount applications : ℚ) * (3/20))

/-- The five module quality criteria. -/
structure ModuleCriteria where
  title_quality : ℚ
  description_quality : ℚ
  learning_objectives_quality : ℚ
  key_topics_quality : ℚ
  practical_relevance : ℚ
  deriving Repr

/-- The criteria dict computed in `check_module_quality`. -/
def moduleCriteriaOf (m : ModuleData) : ModuleCriteria where
  title_quality := check_title_quality m.title
  description_quality := check_description_quality_module m.description
  learning_objectives_quality := check_learning_objectives m.learning_objectives
  key_topics_quality := check_key_topics m.key_topics
  practical_relevance := check_practical_relevance m.practical_applications

/-- `ModuleQualityChecker._generate_improvement_suggestions`. -/
def module_improvement_suggestions (c : ModuleCriteria) : List String :=
  (if c.title_quality < 7/10 then
    ["Make the title more action-oriented and specific about what learners will achieve."]
   else []) ++
  (if c.description_quality < 7/10 then
    ["Enhance the description with more specific details about technologies and skills covered."]
   else []) ++
  (if c.learning_objectives_quality < 7/10 then
    ["Improve learning objectives using specific, measurable action verbs from Bloom's taxonomy."]
   else []) ++
  (if c.key_topics_quality < 7/10 then
    ["Expand key topics to be more comprehensive and specific."]
   else []) ++
  (if c.practical_relevance < 7/10 then
    ["Add more industry-relevant practical applications with specific examples."]
   else [])

/-- Result of `ModuleQualityChecker.check_module_quality`. -/
structure ModuleQualityReport where
  quality_score : ℚ
  passes_threshold : Bool
  criteria : ModuleCriteria
  improvement_suggestions : List String
  deriving Repr

/-- `ModuleQualityChecker.check_module_quality`: averages the five criteria
(scaled to 100) and derives the pass flag and suggestions.  The pass flag is
computed on the unrounded score. -/
def check_module_quality (m : ModuleData) : ModuleQualityReport :=
  let c := moduleCriteriaOf m
  let quality_score : ℚ :=
    (c.title_quality + c.description_quality + c.learning_objectives_quality +
     c.key_topics_quality + c.practical_relevance) / 5 * 100
  { quality_score := roundTo2 quality_score
    passes_threshold := quality_score ≥ 80
    criteria := c
    improvement_suggestions := module_improvement_suggestions c }

/-- `ModuleQualityChecker.improve_module`: no LLM call when the module passes
the threshold or when there are no suggestions; otherwise exactly one call,
whose parsed response replaces the module (the original is kept when the call
or the JSON parse fails, modelled by `oracle = none`). -/
def improve_module (oracle : Option ModuleData) (m : ModuleData)
    (report : ModuleQualityReport) : ModuleData × List Event :=
  if report.passes_threshold then (m, [])
  else if report.improvement_suggestions = [] then (m, [])
  else
    match oracle with
    | some improved => (improved, [.llm .modulegen])
    | none => (m, [.llm .modulegen])

/-- A module entry of the curriculum structure (title and description). -/
structure ModuleItem where
  title : String
  description : String
  deriving Repr, DecidableEq

/-- The structured output of `CurriculumStructureGenerator`
(`ModuleOutput` of `src/ai/module_generator/states/states.py`). -/
structure CurriculumData where
  course : String
  duration : String
  num_modules : Nat
  tools : List String
  modules : List ModuleItem
  deriving Repr, DecidableEq

/-- The enhancement content the model returns for one module
(`json.loads(response.content)` in `ModuleEnhancer.enhance_module`);
a `none` field models a key the model did not produce, which the
dict merge then leaves at the original value. -/
structure EnhancedContent where
  title : Option String := none
  description : Option String := none
  learning_objectives : List String := []
  key_topics : List String := []
  practical_applications : List String := []
  prerequisites_knowledge : List String := []
  prerequisites_technical : List String := []
  estimated_completion_time : String := ""
  deriving Repr

/-- `ModuleEnhancer.enhance_module`: one LLM call; on success the original
title/description are merged with (and overridden by) the model's fields, on
failure (`oracle = none`) the documented fallback module is returned. -/
def enhance_module (oracle : Option EnhancedContent) (m : ModuleItem) :
    ModuleData × List Event :=
  match oracle with
  | some ec =>
    ({ title := ec.title.getD m.title
       description := ec.description.getD m.description
       learning_objectives := ec.learning_objectives
       key_topics := ec.key_topics
       practical_applications := ec.practical_applications
       prerequisites_knowledge := ec.prerequisites_knowledge
       prerequisites_technical := ec.prerequisites_technical
       estimated_completion_time := ec.estimated_completion_time },
     [.llm .modulegen])
  | none =>
    ({ title := m.title
       description := m.description
       learning_objectives := ["Unable to generate learning objectives"]
       key_topics := ["Unable to generate key topics"]
       practical_applications := ["Unable to generate practical applications"]
       estimated_completion_time := "Unknown" },
     [.llm .modulegen])

/-- LLM oracles of the module stage: the curriculum structure, and the
enhancement / improvement responses per module index. -/
structure ModuleOracles where
  curriculum : CurriculumData
  enhance : Nat → Option EnhancedContent
  improveMod : Nat → Option ModuleData

/-- The curriculum dict after per-module enhancement. -/
structure Curriculum where
  course : String
  duration : String
  num_modules : Nat
  tools : List String
  modules : List ModuleData
  deriving Repr

/-- Enhancement, quality check, and conditional improvement of one module
(the loop body of `ModuleGenerator.module_generater`). -/
def processModule (o : ModuleOracles) (i : Nat) (m : ModuleItem) :
    ModuleData × List Event :=
  let (em, e1) := enhance_module (o.enhance i) m
  let report := check_module_quality em
  if !report.passes_threshold then
    let (im, e2) := improve_module (o.improveMod i) em report
    (im, e1 ++ e2)
  else (em, e1)

/-- `ModuleGenerator.module_generater`: one curriculum-structure LLM call,
then per module an enhancement call and, when quality fails, an improvement
pass. -/
def module_generater (o : ModuleOracles) : Curriculum × List Event :=
  let results := o.curriculum.modules.enum.map (fun p => processModule o p.1 p.2)
  ({ course := o.curriculum.course
     duration := o.curriculum.duration
     num_modules := o.curriculum.num_modules
     tools := o.curriculum.tools
     modules := results.map Prod.fst },
   Event.llm .modulegen :: (results.map Prod.snd).flatten)

/-- The exceptions appearing in the repository: the generic wrapper
`CustomException` (modelled from the spec's "single generic exception type";
its module `src/exception` is not part of the tree), plain `Exception`, and
FastAPI's `HTTPException`. -/
inductive PyExc
  | customException (cause : String)
  | plainException (msg : String)
  | httpException (status : Nat) (detail : String)
  deriving Repr, DecidableEq

/-- The module document built by `ModuleGraphgenerator.generate_module` and
inserted into the modules collection. -/
structure ModulesDoc where
  course_id : String
  level : String
  course : String
  duration : String
  num_modules : Nat
  tools : List String
  modules : List ModuleData
  deriving Repr

/-- `generate_module` either returns the module document or — through its
`except` clause — returns (not raises) a `CustomException` object. -/
inductive ModGraphResult
  | ok (doc : ModulesDoc)
  | excObject (e : PyExc)
  deriving Repr

/-- `ModuleGraphgenerator.generate_module`: runs the one-node LangGraph
pipeline (whose output schema restricts the state to the `ModuleOutput`
fields), then adds `course_id` and `level` and a fresh `module_id` per
module.  `fail = some msg` models an exception inside the `try`, which the
code converts into a *returned* `CustomException` value. -/
def generate_module (o : ModuleOracles) (moduleIds : Nat → String)
    (fail : Option String) (desc : CourseDoc) : ModGraphResult × List Event :=
  match fail with
  | some msg => (.excObject (.customException msg), [])
  | none =>
    let (curr, evs) := module_generater o
    (.ok { course_id := desc.course_id
           level := desc.level
           course := curr.course
           duration := curr.duration
           num_modules := curr.num_modules
           tools := curr.tools
           modules := curr.modules.enum.map
             (fun p => { p.2 with module_id := moduleIds p.1 }) },
     evs)

/-! ## Lessons: data model and markdown post-processing

From `src/ai/lessons_generator/states/states.py` and
`src/ai/lessons_generator/agents/lessons_generator.py`. -/

/-- `LessonItem` of the lessons state module. -/
structure LessonItem where
  lesson_id : String
  title : String
  type : String
  content : String
  instruction : Option String := none
  expected_output : Option String := none
  answer : Option String := none
  outline : Option String := none
  deriving Repr, DecidableEq

/-- `ModuleLessonContent`. -/
structure ModuleLessonContent where
  module_id : String
  lessons : List LessonItem
  deriving Repr, DecidableEq

/-- `ModulesLessonOutput`. -/
structure ModulesLessonOutput where
  course_id : String
  modules : List ModuleLessonContent
  deriving Repr, DecidableEq

/-- `s.startswith(pre)`. -/
def strStartsWith (s pre : String) : Bool :=
  listStartsWith s.data pre.data

/-- Assignment `sections[name] = value` on the insertion-ordered dict:
updates an existing key in place, else appends. -/
def upsertSection (k v : String) : List (String × String) → List (String × String)
  | [] => [(k, v)]
  | (k', v') :: rest =>
    if k' = k then (k, v) :: rest else (k', v') :: upsertSection k v rest

/-- State of the `_parse_markdown_sections` line loop: the sections so far,
the current section name, and its collected lines (reversed). -/
structure MdParseState where
  sections : List (String × String)
  current : Option String
  acc : List String

/-- Flush the current section into the dict, as done on a new `## ` line and
once after the loop. -/
def mdFlush (st : MdParseState) : List (String × String) :=
  match st.current with
  | some name => upsertSection name (pyStrip (joinLines st.acc.reverse)) st.sections
  | none => st.sections

/-- One line of the `_parse_markdown_sections` loop. -/
def mdStep (st : MdParseState) (line : String) : MdParseState :=
  if strStartsWith line "## " then
    { sections := mdFlush st
      current := some (pyStrip (String.mk (line.data.drop 3)))
      acc := [] }
  else
    match st.current with
    | some _ => { st with acc := line :: st.acc }
    | none => st

/-- `_parse_markdown_sections` (the identical helper appears in both
`lessons_generator.py` and `lesson_quality_checker.py`): splits markdown
into an insertion-ordered dict of `## `-headed sections, discarding every
line before the first `## ` line. -/
def parse_markdown_sections (text : String) : List (String × String) :=
  mdFlush ((pyLines text).foldl mdStep ⟨[], none, []⟩)

/-- The section names `_extract_main_content` routes to dedicated fields. -/
def excludedSections : List String :=
  ["instruction", "expected_output", "answer"]

/-- `_extract_main_content`: re-joins all non-excluded sections, each with its
`## ` header, separated by blank lines. -/
def extract_main_content (sections : List (String × String)) : String :=
  String.mk (joinWith ['\n', '\n']
    ((sections.filter (fun p => !excludedSections.contains (pyLower p.1))).map
      (fun p => ("## " ++ p.1 ++ "\n" ++ p.2).data)))

/-- `dict.get(key, d)` on the sections dict. -/
def sectionsGet (sections : List (String × String)) (key d : String) : String :=
  match sections.find? (fun p => p.1 == key) with
  | some p => p.2
  | none => d

/-! ### `_ensure_markdown_consistency`

Each of the six `re.sub` substitutions is embedded as a character-level
left-to-right scan with the same non-overlapping, leftmost, greedy-with-
backtracking semantics as the Python regex. -/

/-- `re.sub(r'##(?=[^\s#])', '## ', ...)` for `n = 2` and
`re.sub(r'###(?=[^\s#])', '### ', ...)` for `n = 3`: a hash run of length at
least `n` directly followed by a non-space non-hash character gets a space
inserted (the match uses the last `n` hashes of the run). -/
def fixHashHeadersAux (n : Nat) : Nat → List Char → List Char
  | pending, [] => List.replicate pending '#'
  | pending, c :: rest =>
    if c == '#' then fixHashHeadersAux n (pending + 1) rest
    else if n ≤ pending && !c.isWhitespace then
      List.replicate pending '#' ++ ' ' :: c :: fixHashHeadersAux n 0 rest
    else
      List.replicate pending '#' ++ c :: fixHashHeadersAux n 0 rest

/-- State of the code-fence scans: inside a backtick run, or inside the
whitespace following a run of at least three backticks (buffer reversed). -/
inductive FenceSt
  | run (pending : Nat)
  | ws (pending : Nat) (rbuf : List Char)

/-- Flush for `re.sub(r'```\s*\n', '```text\n', ...)`: the match is the last
three backticks plus the whitespace up to and including its last newline;
without a newline there is no match. -/
def fenceFlushText (p : Nat) (rbuf : List Char) : List Char :=
  let buf := rbuf.reverse
  if buf.contains '\n' then
    List.replicate (p - 3) '`' ++ "```text\n".data ++
      (rbuf.takeWhile (· ≠ '\n')).reverse
  else
    List.replicate p '`' ++ buf

/-- The scan of `re.sub(r'```\s*\n', '```text\n', ...)`. -/
def fenceTextAux : FenceSt → List Char → List Char
  | .run p, [] => List.replicate p '`'
  | .ws p rbuf, [] => fenceFlushText p rbuf
  | .run p, c :: rest =>
    if c == '`' then fenceTextAux (.run (p + 1)) rest
    else if 3 ≤ p && c.isWhitespace then fenceTextAux (.ws p [c]) rest
    else List.replicate p '`' ++ c :: fenceTextAux (.run 0) rest
  | .ws p rbuf, c :: rest =>
    if c.isWhitespace then fenceTextAux (.ws p (c :: rbuf)) rest
    else if c == '`' then fenceFlushText p rbuf ++ fenceTextAux (.run 1) rest
    else fenceFlushText p rbuf ++ c :: fenceTextAux (.run 0) rest

/-- In the reversed whitespace buffer, the characters after the rightmost
newline that passes the `(?=[^\n])` lookahead (`ok` says whether the
character following the current head passes it). -/
def findLookaheadCut : Bool → List Char → List Char → Option (List Char)
  | _, _, [] => none
  | ok, pre, c :: rest =>
    if c == '\n' && ok then some pre.reverse
    else findLookaheadCut (c != '\n') (c :: pre) rest

/-- Flush for `re.sub(r'```\s*\n(?=[^\n])', '```\n\n', ...)`:
`withFollower` records whether a (non-whitespace, hence non-newline)
character follows the buffer. -/
def fenceFlushBlank (p : Nat) (withFollower : Bool) (rbuf : List Char) : List Char :=
  match findLookaheadCut withFollower [] rbuf with
  | some after => List.replicate (p - 3) '`' ++ "```\n\n".data ++ after
  | none => List.replicate p '`' ++ rbuf.reverse

/-- The scan of `re.sub(r'```\s*\n(?=[^\n])', '```\n\n', ...)`. -/
def fenceBlankAux : FenceSt → List Char → List Char
  | .run p, [] => List.replicate p '`'
  | .ws p rbuf, [] => fenceFlushBlank p false rbuf
  | .run p, c :: rest =>
    if c == '`' then fenceBlankAux (.run (p + 1)) rest
    else if 3 ≤ p && c.isWhitespace then fenceBlankAux (.ws p [c]) rest
    else List.replicate p '`' ++ c :: fenceBlankAux (.run 0) rest
  | .ws p rbuf, c :: rest =>
    if c.isWhitespace then fenceBlankAux (.ws p (c :: rbuf)) rest
    else if c == '`' then fenceFlushBlank p true rbuf ++ fenceBlankAux (.run 1) rest
    else fenceFlushBlank p true rbuf ++ c :: fenceBlankAux (.run 0) rest

/-- States of the scan for `re.sub(r'(\n##[^\n]+)\n(?=[^\n])', r'\1\n\n', ...)`. -/
inductive HeaderSt
  | norm
  | nl
  | nlH
  | body (rbuf : List Char)
  | lookNl (rbuf : List Char)

/-- The unemitted pending characters of a `HeaderSt`. -/
def headerPending : HeaderSt → List Char
  | .norm => []
  | .nl => ['\n']
  | .nlH => ['\n', '#']
  | .body rbuf => '\n' :: '#' :: '#' :: rbuf.reverse
  | .lookNl rbuf => '\n' :: '#' :: '#' :: rbuf.reverse ++ ['\n']

/-- The scan of `re.sub(r'(\n##[^\n]+)\n(?=[^\n])', r'\1\n\n', ...)`: a
newline, `##`, a nonempty line remainder, a newline, and a following
non-newline character get a blank line inserted. -/
def headerBlankAux : HeaderSt → List Char → List Char
  | st, [] => headerPending st
  | .norm, c :: rest =>
    if c == '\n' then headerBlankAux .nl rest
    else c :: headerBlankAux .norm rest
  | .nl, c :: rest =>
    if c == '#' then headerBlankAux .nlH rest
    else if c == '\n' then '\n' :: headerBlankAux .nl rest
    else '\n' :: c :: headerBlankAux .norm rest
  | .nlH, c :: rest =>
    if c == '#' then headerBlankAux (.body []) rest
    else if c == '\n' then '\n' :: '#' :: headerBlankAux .nl rest
    else '\n' :: '#' :: c :: headerBlankAux .norm rest
  | .body rbuf, c :: rest =>
    if c == '\n' then
      if rbuf.isEmpty then '\n' :: '#' :: '#' :: headerBlankAux .nl rest
      else headerBlankAux (.lookNl rbuf) rest
    else headerBlankAux (.body (c :: rbuf)) rest
  | .lookNl rbuf, c :: rest =>
    if c == '\n' then
      ('\n' :: '#' :: '#' :: rbuf.reverse ++ ['\n']) ++ headerBlankAux .nl rest
    else
      ('\n' :: '#' :: '#' :: rbuf.reverse ++ ['\n', '\n']) ++ c :: headerBlankAux .norm rest

/-- States of the scan for
`re.sub(r'^\s*-\s', '* ', ..., flags=re.MULTILINE)`. -/
inductive BulletSt
  | norm
  | lineStart (rbuf : List Char)
  | dash (rbuf : List Char)

/-- The scan of `re.sub(r'^\s*-\s', '* ', ..., flags=re.MULTILINE)`: at a line
start, a whitespace run (possibly spanning lines), a dash, and one more
whitespace character collapse to `* `. -/
def bulletsAux : BulletSt → List Char → List Char
  | .norm, [] => []
  | .lineStart rbuf, [] => rbuf.reverse
  | .dash rbuf, [] => rbuf.reverse ++ ['-']
  | .norm, c :: rest =>
    if c == '\n' then '\n' :: bulletsAux (.lineStart []) rest
    else c :: bulletsAux .norm rest
  | .lineStart rbuf, c :: rest =>
    if c.isWhitespace then bulletsAux (.lineStart (c :: rbuf)) rest
    else if c == '-' then bulletsAux (.dash rbuf) rest
    else rbuf.reverse ++ c :: bulletsAux .norm rest
  | .dash rbuf, c :: rest =>
    if c.isWhitespace then
      '*' :: ' ' :: bulletsAux (if c == '\n' then .lineStart [] else .norm) rest
    else
      rbuf.reverse ++ '-' :: c :: bulletsAux .norm rest

/-- `DetailedContentGenerator._ensure_markdown_consistency`: the six `re.sub`
substitutions, in source order, after the early return on empty content. -/
def ensure_markdown_consistency (content : String) : String :=
  if content = "" then content
  else
    String.mk
      (bulletsAux (.lineStart [])
        (fenceBlankAux (.run 0)
          (headerBlankAux .norm
            (fenceTextAux (.run 0)
              (fixHashHeadersAux 3 0
                (fixHashHeadersAux 2 0 content.data))))))

/-- The module-context dict handed to the content generator
(`{'title': ..., 'description': ..., 'module_id': ...}`; it has no `level`
key, which `expand_lesson_content` reads with `.get('level', '')`). -/
structure ModuleContextL where
  title : String
  description : String
  module_id : String
  level : Option String := none
  deriving Repr, DecidableEq

/-- `DetailedContentGenerator.expand_lesson_content`: one LLM call per lesson;
the response is split into `## ` sections, the non-special sections become the
content (so a response without `## ` headers yields empty content), and for
`read_and_execute` lessons the special sections are routed to their fields.
On an LLM error (`oracle = none`) the lesson is returned as-is.  (The
`expanded_lesson` copy the code builds first is never used: the code mutates
and returns its `lesson` argument.) -/
def expand_lesson_content (oracle : Option String) (lesson : LessonItem)
    (_ctx : ModuleContextL) : LessonItem × List Event :=
  match oracle with
  | none => (lesson, [.llm .lesson])
  | some response =>
    let content_sections := parse_markdown_sections response
    let l1 := { lesson with
      content := ensure_markdown_consistency (extract_main_content content_sections) }
    let l2 :=
      if lesson.type = "read_and_execute" then
        { l1 with
          instruction :=
            some (ensure_markdown_consistency (sectionsGet content_sections "instruction" ""))
          expected_output :=
            some (ensure_markdown_consistency (sectionsGet content_sections "expected_output" ""))
          answer :=
            some (ensure_markdown_consistency (sectionsGet content_sections "answer" "")) }
      else l1
    (l2, [.llm .lesson])

/-! ## Lesson quality checking

From `src/ai/lessons_generator/agents/lesson_quality_checker.py`. -/

/-- Result of `check_content_structure`. -/
structure ContentStructureCheck where
  has_sections : Bool
  content_length : Nat
  paragraph_count : Nat
  has_formatting : Bool
  structure_quality : String
  deriving Repr, DecidableEq

/-- `re.findall(r'##\s+\w+', content)` is nonempty: scan tracking the current
hash-run length and whether we are in the whitespace after a two-hash run. -/
def hasSectionPattern : Nat → Bool → List Char → Bool
  | _, _, [] => false
  | hashes, inWs, c :: rest =>
    if inWs then
      if c.isWhitespace then hasSectionPattern 0 true rest
      else if isWordChar c then true
      else if c == '#' then hasSectionPattern 1 false rest
      else hasSectionPattern 0 false rest
    else
      if c == '#' then hasSectionPattern (hashes + 1) false rest
      else if 2 ≤ hashes && c.isWhitespace then hasSectionPattern 0 true rest
      else hasSectionPattern 0 false rest

/-- The formatting markers of `check_content_structure`. -/
def formattingMarkers : List String :=
  ["**", "*", "```", "- ", "1. "]

/-- `LessonQualityChecker.check_content_structure`. -/
def check_content_structure (content : String) : ContentStructureCheck :=
  let has_sections := hasSectionPattern 0 false content.data
  let content_length := content.data.length
  let paragraphs := countDoubleNewline content.data
  let has_formatting := formattingMarkers.any (fun m => containsSub content m)
  { has_sections := has_sections
    content_length := content_length
    paragraph_count := paragraphs
    has_formatting := has_formatting
    structure_quality :=
      if has_sections && 500 < content_length && 3 ≤ paragraphs && has_formatting
      then "good" else "needs_improvement" }

/-- Result of `check_code_quality`; the fields other than `has_code` default
to the `dict.get(..., False)` value used when the key is absent. -/
structure CodeQualityCheck where
  has_code : Bool
  has_comments : Bool := false
  has_proper_indentation : Bool := false
  has_error_handling : Bool := false
  deriving Repr, DecidableEq

/-- The comment markers of `check_code_quality`. -/
def commentMarkers : List String :=
  ["//", "/*", "#", "<!--", "\"\"\"", "'''"]

/-- The error-handling patterns of `check_code_quality`. -/
def errorHandlingPatterns : List String :=
  ["try", "catch", "except", "finally", "rescue", "raise", "throw", "error",
   "handle", "on error", "if err", "error handling"]

/-- `LessonQualityChecker.check_code_quality`. -/
def check_code_quality (code : String) (is_technical : Bool) : CodeQualityCheck :=
  if code = "" || !is_technical then { has_code := false }
  else
    { has_code := true
      has_comments := commentMarkers.any (fun m => containsSub code m)
      has_proper_indentation :=
        let lines := pyLines code
        if 1 < lines.length then
          (pyDedup (((lines.drop 1).filter (fun l => pyStrip l ≠ "")).map
            leadingWsCount)).length ≤ 3
        else true
      has_error_handling :=
        errorHandlingPatterns.any (fun p => containsSub (pyLower code) p) }

/-- Result of `check_exercise_quality`; fields default to the
`dict.get(..., False)` value used when the key is absent. -/
structure ExerciseQualityCheck where
  is_exercise : Bool
  has_clear_steps : Bool := false
  has_clear_output : Bool := false
  code_quality : CodeQualityCheck := { has_code := false }
  deriving Repr, DecidableEq

/-- `re.search(r'\b\d+[\.\)]\s', s)` succeeds: a digit run opening at a word
boundary, a period or closing parenthesis, and a whitespace character. -/
def hasNumberedStep : Bool → List Char → Bool
  | _, [] => false
  | prevWord, c :: rest =>
    (c.isDigit && !prevWord &&
      (match rest.dropWhile Char.isDigit with
       | d :: w :: _ => (d == '.' || d == ')') && w.isWhitespace
       | _ => false)) ||
    hasNumberedStep (isWordChar c) rest

/-- `LessonQualityChecker.check_exercise_quality`. -/
def check_exercise_quality (lesson : LessonItem) : ExerciseQualityCheck :=
  if lesson.type ≠ "read_and_execute" then { is_exercise := false }
  else
    { is_exercise := true
      has_clear_steps :=
        match lesson.instruction with
        | none => false
        | some s => s ≠ "" && (hasNumberedStep false s.data || containsSub s "Step")
      has_clear_output :=
        match lesson.expected_output with
        | none => false
        | some s => s ≠ "" && 20 < s.data.length
      code_quality := check_code_quality (lesson.answer.getD "") true }

/-- The module context `_check_module_relevance` receives
(only its `title` and `description` entries are read). -/
structure RelevanceContext where
  title : String
  description : String
  deriving Repr, DecidableEq

/-- Result of `_check_module_relevance`; defaults model the `{"is_relevant":
True}` dicts returned on a missing context or an internal error. -/
structure RelevanceCheck where
  is_relevant : Bool
  keyword_relevance : ℚ := 0
  irrelevant_sections : List String := []
  deriving Repr

/-- The stop-word set of `_extract_keywords`. -/
def stopWords : List String :=
  ["a", "an", "the", "and", "or", "but", "if", "then", "else", "when",
   "at", "from", "by", "for", "with", "about", "against", "between",
   "into", "through", "during", "before", "after", "above", "below",
   "to", "of", "in", "on", "is", "are", "was", "were", "be", "been",
   "being", "have", "has", "had", "having", "do", "does", "did",
   "doing", "this", "that", "these", "those", "will", "would", "shall",
   "should", "can", "could", "may", "might"]

/-- `LessonQualityChecker._extract_keywords`: lowercases, blanks non-word
characters, and keeps the distinct words longer than two characters that are
not stop words. -/
def extract_keywords (text : String) : List String :=
  let clean := String.mk ((pyLower text).data.map
    (fun c => if isWordChar c || c.isWhitespace then c else ' '))
  pyDedup ((pyWords clean).filter
    (fun w => !stopWords.contains w && 2 < w.data.length))

/-- `LessonQualityChecker._check_module_relevance` (the success path of its
`try`; any internal error is caught and yields "relevant"). -/
def check_module_relevance (lesson : LessonItem) (ctx : RelevanceContext) :
    RelevanceCheck :=
  let title_keywords := extract_keywords ctx.title
  let desc_keywords := extract_keywords ctx.description
  let all_keywords := pyDedup (title_keywords ++ desc_keywords)
  let content_text := lesson.title ++ " " ++ lesson.content
  let keyword_matches := (all_keywords.filter
    (fun k => containsSub (pyLower content_text) (pyLower k))).length
  let denom : Nat := max 1 all_keywords.length
  let keyword_relevance : ℚ := (keyword_matches : ℚ) / denom
  let sections := parse_markdown_sections lesson.content
  let irrelevant_sections := (sections.filter (fun p =>
    ((all_keywords.filter (fun k => containsSub (pyLower p.2) (pyLower k))).length : ℚ)
      / denom < 1/5)).map Prod.fst
  { is_relevant := keyword_relevance ≥ 3/10 && irrelevant_sections.length ≤ 1
    keyword_relevance := keyword_relevance
    irrelevant_sections := irrelevant_sections }

/-- The deductions `evaluate_lesson` applies to the initial score of 100,
before clamping. -/
def rawLessonScore (sc : ContentStructureCheck) (cq : CodeQualityCheck)
    (exq : ExerciseQualityCheck) (mr : RelevanceCheck) : ℤ :=
  100
  - (if sc.structure_quality = "needs_improvement" then 20 else 0)
  - (if sc.content_length < 300 then 15 else 0)
  - (if !sc.has_sections then 15 else 0)
  - (if !sc.has_formatting then 10 else 0)
  - (if cq.has_code && !cq.has_comments then 10 else 0)
  - (if cq.has_code && !cq.has_proper_indentation then 10 else 0)
  - (if cq.has_code && !cq.has_error_handling then 5 else 0)
  - (if exq.is_exercise && !exq.has_clear_steps then 15 else 0)
  - (if exq.is_exercise && !exq.has_clear_output then 10 else 0)
  - (if !mr.is_relevant then 25 else 0)

/-- The clamp `max(0, min(100, quality_score))` of `evaluate_lesson`. -/
def clampScore (x : ℤ) : ℤ :=
  max 0 (min 100 x)

/-- Python `", ".join(names)`. -/
def joinComma (names : List String) : String :=
  String.mk (joinWith [',', ' '] (names.map String.data))

/-- The improvement suggestions `evaluate_lesson` collects. -/
def lessonSuggestions (sc : ContentStructureCheck) (cq : CodeQualityCheck)
    (exq : ExerciseQualityCheck) (mr : RelevanceCheck) : List String :=
  (if sc.structure_quality = "needs_improvement" then
    (if !sc.has_sections then ["Add section headers to organize content"] else []) ++
    (if sc.content_length < 300 then
      ["Expand the content with more detailed explanations"] else []) ++
    (if sc.paragraph_count < 3 then
      ["Break content into more paragraphs for readability"] else []) ++
    (if !sc.has_formatting then
      ["Add formatting elements like bold, italic, lists, or code blocks"] else [])
   else []) ++
  (if cq.has_code then
    (if !cq.has_comments then ["Add comments to code examples"] else []) ++
    (if !cq.has_proper_indentation then ["Fix code indentation"] else []) ++
    (if !cq.has_error_handling then ["Add error handling to code examples"] else [])
   else []) ++
  (if exq.is_exercise then
    (if !exq.has_clear_steps then ["Add numbered steps to exercise instructions"] else []) ++
    (if !exq.has_clear_output then ["Provide clearer description of expected output"] else [])
   else []) ++
  (if !mr.is_relevant then
    ["Rewrite content to focus specifically on the module topic"] ++
    (if !mr.irrelevant_sections.isEmpty then
      ["Revise these sections to be more module-specific: " ++
        joinComma mr.irrelevant_sections]
     else [])
   else [])

/-- Result of `evaluate_lesson`. -/
structure LessonEvaluation where
  lesson_id : String
  quality_score : ℤ
  passes_threshold : Bool
  structure_check : ContentStructureCheck
  code_quality : CodeQualityCheck
  exercise_quality : ExerciseQualityCheck
  module_relevance : RelevanceCheck
  improvement_suggestions : List String
  deriving Repr

/-- The code-quality check of `evaluate_lesson`: the concatenated
` ``` `-delimited blocks of the content when there are any. -/
def lessonCodeQuality (lesson : LessonItem) : CodeQualityCheck :=
  let code_blocks := tickGroups (splitTicks lesson.content.data)
  if !code_blocks.isEmpty then
    check_code_quality (String.mk (joinWith ['\n'] code_blocks)) true
  else { has_code := false }

/-- The exercise-quality check of `evaluate_lesson`. -/
def lessonExerciseQuality (lesson : LessonItem) : ExerciseQualityCheck :=
  if lesson.type = "read_and_execute" then check_exercise_quality lesson
  else { is_exercise := false }

/-- The relevance check of `evaluate_lesson` (defaulting to relevant when no
module context is given). -/
def lessonRelevance (lesson : LessonItem) (module_context : Option RelevanceContext) :
    RelevanceCheck :=
  match module_context with
  | some ctx => check_module_relevance lesson ctx
  | none => { is_relevant := true }

/-- `LessonQualityChecker.evaluate_lesson`: structure, code, exercise and
relevance checks, an accumulated-deduction score clamped to `[0, 100]`, a
70-point pass threshold, and improvement suggestions. -/
def evaluate_lesson (lesson : LessonItem) (module_context : Option RelevanceContext) :
    LessonEvaluation :=
  let sc := check_content_structure lesson.content
  let cq := lessonCodeQuality lesson
  let exq := lessonExerciseQuality lesson
  let mr := lessonRelevance lesson module_context
  let quality_score := clampScore (rawLessonScore sc cq exq mr)
  { lesson_id := lesson.lesson_id
    quality_score := quality_score
    passes_threshold := quality_score ≥ 70
    structure_check := sc
    code_quality := cq
    exercise_quality := exq
    module_relevance := mr
    improvement_suggestions := lessonSuggestions sc cq exq mr }

/-! ## Lesson improvement and orchestration -/

/-- After the first `"Title:"`, skip whitespace and capture up to the next
newline or the end, then strip: `re.search(r"Title:\s*(.*?)(?:\n|$)", s)`. -/
def extractLineField (content marker : String) : Option String :=
  (firstOccurrence marker.data content.data).map (fun i =>
    let after := (content.data.drop (i + marker.data.length)).dropWhile Char.isWhitespace
    pyStrip (String.mk (after.takeWhile (· ≠ '\n'))))

/-- Least element of a list of indices. -/
def minIndex (l : List Nat) : Option Nat :=
  l.foldl (fun acc n =>
    match acc with
    | none => some n
    | some m => some (min m n)) none

/-- After the first occurrence of `marker`, skip whitespace and capture (in
DOTALL mode) lazily up to the first of the `terminators` or the end, then
strip: the shape of the `Content:`/`Instruction:`/`Expected Output:`/`Answer:`
extractions of `improve_lesson`. -/
def extractBlockField (content marker : String) (terminators : List String) :
    Option String :=
  (firstOccurrence marker.data content.data).map (fun i =>
    let after := (content.data.drop (i + marker.data.length)).dropWhile Char.isWhitespace
    let cut :=
      match minIndex (terminators.filterMap (fun t => firstOccurrence t.data after)) with
      | some j => after.take j
      | none => after
    pyStrip (String.mk cut))

/-- `LessonQualityChecker.improve_lesson`: lessons that pass the threshold, or
whose evaluation carries no suggestions, are returned unchanged with no LLM
call; otherwise exactly one call is made and the labelled fields of the
response overwrite the lesson (the original is kept when the call fails,
modelled by `oracle = none`).  The module-context database fetch inside
references `self.mongodb_client`, an attribute `LessonQualityChecker` never
defines, so it always raises, is caught, and leaves the context empty. -/
def improve_lesson (oracle : Option String) (lesson : LessonItem)
    (evaluation : LessonEvaluation) : LessonItem × List Event :=
  if evaluation.passes_threshold then (lesson, [])
  else if evaluation.improvement_suggestions.isEmpty then (lesson, [])
  else
    match oracle with
    | none => (lesson, [.llm .lesson])
    | some improved_content =>
      let l1 :=
        match extractLineField improved_content "Title:" with
        | some t => { lesson with title := t }
        | none => lesson
      let l2 :=
        match extractBlockField improved_content "Content:"
            ["\n\nInstruction:", "\n\nExpected Output:", "\n\nAnswer:"] with
        | some c => { l1 with content := c }
        | none => l1
      let l3 :=
        if lesson.type = "read_and_execute" then
          let l3a :=
            match extractBlockField improved_content "Instruction:"
                ["\n\nExpected Output:", "\n\nAnswer:"] with
            | some v => { l2 with instruction := some v }
            | none => l2
          let l3b :=
            match extractBlockField improved_content "Expected Output:"
                ["\n\nAnswer:"] with
            | some v => { l3a with expected_output := some v }
            | none => l3a
          match extractBlockField improved_content "Answer:" ["\n\n"] with
          | some v => { l3b with answer := some v }
          | none => l3b
        else l2
      (l3, [.llm .lesson])

/-- One entry of `check_module_quality`'s `lesson_evaluations`. -/
structure LessonEvalEntry where
  lesson_id : String
  title : String
  evaluation : LessonEvaluation
  deriving Repr

/-- Result of the lesson-side `check_module_quality`. -/
structure LessonModuleQuality where
  module_id : String
  average_quality_score : ℚ
  passes_threshold : Bool
  lessons_below_threshold : Nat
  has_good_type_mix : Bool
  improvement_suggestions : List String
  lesson_evaluations : List LessonEvalEntry
  deriving Repr

/-- `LessonQualityChecker.check_module_quality` (the lesson-side checker of
the same name as the module-side one): evaluates every lesson of a module
with a module context whose title and description stay empty — the database
fetch references `self.mongodb_client`, which `LessonQualityChecker` never
defines, so it always raises and is caught — and averages the scores. -/
def check_module_quality_lessons (m : ModuleLessonContent) : LessonModuleQuality :=
  let module_context : RelevanceContext := { title := "", description := "" }
  let read_count := (m.lessons.filter (fun l => l.type = "read")).length
  let practice_count := (m.lessons.filter (fun l => l.type = "read_and_execute")).length
  let has_good_type_mix := 0 < read_count && 0 < practice_count
  let lesson_evaluations := m.lessons.map (fun l =>
    { lesson_id := l.lesson_id
      title := l.title
      evaluation := evaluate_lesson l (some module_context) : LessonEvalEntry })
  let total_score : ℤ :=
    (lesson_evaluations.map (fun e => e.evaluation.quality_score)).sum
  let lessons_below_threshold :=
    (lesson_evaluations.filter (fun e => !e.evaluation.passes_threshold)).length
  let avg_score : ℚ := (total_score : ℚ) / (max 1 m.lessons.length : ℕ)
  { module_id := m.module_id
    average_quality_score := avg_score
    passes_threshold := avg_score ≥ 70
    lessons_below_threshold := lessons_below_threshold
    has_good_type_mix := has_good_type_mix
    improvement_suggestions :=
      (if 0 < lessons_below_threshold then
        ["Improve " ++ toString lessons_below_threshold ++ " lessons below quality threshold"]
       else []) ++
      (if !has_good_type_mix then
        (if practice_count = 0 then ["Add practical exercises to the module"]
         else if read_count = 0 then ["Add theoretical lessons to the module"]
         else [])
       else [])
    lesson_evaluations := lesson_evaluations }

/-- Result of `check_course_quality`. -/
structure CourseQuality where
  course_id : String
  overall_quality_score : ℚ
  passes_threshold : Bool
  improvement_suggestions : List String
  module_evaluations : List LessonModuleQuality
  deriving Repr

/-- `LessonQualityChecker.check_course_quality`. -/
def check_course_quality (course : ModulesLessonOutput) : CourseQuality :=
  let module_evaluations := course.modules.map check_module_quality_lessons
  let avg_score : ℚ :=
    if !course.modules.isEmpty then
      ((module_evaluations.map (fun e => e.average_quality_score)).sum) /
        (course.modules.length : ℕ)
    else 0
  let low_quality_modules :=
    (module_evaluations.filter (fun e => !e.passes_threshold)).map (fun e => e.module_id)
  let modules_without_mix :=
    (module_evaluations.filter (fun e => !e.has_good_type_mix)).map (fun e => e.module_id)
  { course_id := course.course_id
    overall_quality_score := avg_score
    passes_threshold := avg_score ≥ 70
    improvement_suggestions :=
      (if avg_score < 70 then ["The overall course quality needs improvement"] else []) ++
      (if !low_quality_modules.isEmpty then
        ["Modules that need improvement: " ++ joinComma low_quality_modules] else []) ++
      (if !modules_without_mix.isEmpty then
        ["Add more practical exercises to modules: " ++ joinComma modules_without_mix]
       else [])
    module_evaluations := module_evaluations }

/-- `LessonsGenerator._check_and_improve_module_quality`: evaluates the
module, runs `improve_lesson` on every lesson below the threshold, and
replaces the lesson list.  The lookup by `lesson_id` always finds the lesson,
because the evaluations were built from the same list. -/
def check_and_improve_module_quality (oracle : Nat → Option String)
    (m : ModuleLessonContent) : ModuleLessonContent × List Event :=
  let module_quality := check_module_quality_lessons m
  let steps := module_quality.lesson_evaluations.enum.map (fun p =>
    match m.lessons.find? (fun l => l.lesson_id == p.2.lesson_id) with
    | some l =>
      if !p.2.evaluation.passes_threshold then
        some (improve_lesson (oracle p.1) l p.2.evaluation)
      else some (l, ([] : List Event))
    | none => none)
  let improved := steps.filterMap id
  ({ m with lessons := improved.map Prod.fst }, (improved.map Prod.snd).flatten)

/-- LLM oracles of the lessons stage, per module index (and lesson index
where applicable). -/
structure LessonOracles where
  outlines : Nat → ModuleLessonContent
  lessonIds : Nat → Nat → String
  expand : Nat → Nat → Option String
  improveLes : Nat → Nat → Option String

/-- The loop body of `generate_lessons_for_each_module` for one module at
index `i`: one outline LLM call (whose lessons receive fresh ids), one
expansion LLM call per lesson, then the quality-check-and-improve pass. -/
def processLessonModule (o : LessonOracles) (i : Nat) (module : ModuleData) :
    ModuleLessonContent × List Event :=
  let outline := o.outlines i
  let outlineWithIds := { outline with
    lessons := outline.lessons.enum.map (fun (q : Nat × LessonItem) =>
      { q.2 with lesson_id := o.lessonIds i q.1 }) }
  let ctx : ModuleContextL :=
    { title := module.title
      description := module.description
      module_id := module.module_id }
  let expanded := outlineWithIds.lessons.enum.map (fun (q : Nat × LessonItem) =>
    expand_lesson_content (o.expand i q.1) q.2 ctx)
  let m1 := { outlineWithIds with lessons := expanded.map Prod.fst }
  let improved := check_and_improve_module_quality (o.improveLes i) m1
  (improved.1, Event.llm .lesson :: (expanded.map Prod.snd).flatten ++ improved.2)

/-- `LessonsGenerator.generate_lessons_for_each_module`: the per-module loop,
then the course output; a final course-level quality report is computed and
only logged. -/
def generate_lessons_for_each_module (o : LessonOracles) (modules : List ModuleData)
    (course_id : String) : ModulesLessonOutput × List Event :=
  let results := modules.enum.map (fun p => processLessonModule o p.1 p.2)
  let course_output : ModulesLessonOutput :=
    { course_id := course_id, modules := results.map Prod.fst }
  (course_output, (results.map Prod.snd).flatten)

/-! ## Course-generation orchestration

From `Courses.generate_course` in `src/src/components/courses.py`. -/

/-- The three collections `generate_course` writes, as typed document lists. -/
structure CourseDB where
  courses : List CourseDoc
  modules : List ModulesDoc
  lessons : List ModulesLessonOutput

/-- All oracles of one course-generation run. -/
structure PipelineOracles where
  desc : DescriptionOracles
  mods : ModuleOracles
  moduleIds : Nat → String
  modFail : Option String
  les : LessonOracles

/-- Result of `generate_course`: the already-exists message, the
`{"udpated": True}` dict of the final insert, or a raised
`CustomException`. -/
inductive GenCourseResult
  | existsMsg (message : String)
  | inserted
  | raisedCustom
  deriving Repr, DecidableEq

/-- `Courses.generate_course`: checks for a duplicate course name (returning
a message and doing nothing else if found), then generates and inserts the
description, then the modules, then the lessons, in that order.  When
`generate_module` returns its `CustomException` value, the following
subscript raises, so the run aborts with a raised `CustomException` after the
description insert. -/
def generate_course (o : PipelineOracles) (db : CourseDB) (data : AddNewCourse)
    (unique_id : String) : GenCourseResult × CourseDB × List Event :=
  match db.courses.find? (fun c => c.course_name == data.course_name) with
  | some _ =>
    (.existsMsg ("Course '" ++ data.course_name ++ "' already exists."), db,
     [.dbFind .courses])
  | none =>
    let (description, descEvents) := generate_description o.desc data unique_id
    let db1 := { db with courses := db.courses ++ [description] }
    let (modResult, modEvents) :=
      generate_module o.mods o.moduleIds o.modFail description
    match modResult with
    | .excObject _ =>
      (.raisedCustom, db1,
       .dbFind .courses :: descEvents ++ .dbInsert .courses :: modEvents)
    | .ok modsDoc =>
      let db2 := { db1 with modules := db1.modules ++ [modsDoc] }
      let (lessonsOut, lessonEvents) :=
        generate_lessons_for_each_module o.les modsDoc.modules unique_id
      let db3 := { db2 with lessons := db2.lessons ++ [lessonsOut] }
      (.inserted, db3,
       .dbFind .courses :: descEvents ++ .dbInsert .courses :: modEvents ++
         .dbInsert .modules :: lessonEvents ++ [.dbInsert .lessons])

/-! ## Failure signalling of the cited operations

From `src/utils/mongo_insert_one.py`, `src/ai/course_generation/insertion/
mongodb_insertion.py` and `src/ai/module_generator/graph.py`.  An operation
either returns a value or raises; the underlying database failure is the
parameter (`none` = the driver call succeeds, `some msg` = it raises with
message `msg`). -/

/-- A Python call outcome: a normal return or a propagating exception. -/
inductive PyOutcome (α : Type)
  | ret (a : α)
  | raised (e : PyExc)
  deriving Repr, DecidableEq

/-- Did the call signal failure by raising a `CustomException`? -/
def PyOutcome.raisedCustomException {α : Type} : PyOutcome α → Bool
  | .raised (.customException _) => true
  | _ => false

/-- `MongoUtils.insert_one_document` returns `{"udpated": True}`. -/
structure UdpatedDict where
  udpated : Bool
  deriving Repr, DecidableEq

/-- `MongoUtils.insert_one_document`: on success returns the
`{"udpated": True}` dict; on a driver error raises a *plain* `Exception`
(`raise Exception(f"Mongo insert failed: {e}") from e`), not a
`CustomException`. -/
def insert_one_document (dbFail : Option String) : PyOutcome UdpatedDict :=
  match dbFail with
  | none => .ret { udpated := true }
  | some msg => .raised (.plainException ("Mongo insert failed: " ++ msg))

/-- The status dict `InsertData.insert_data` returns. -/
structure InsertStatusDict where
  status : Bool
  message : String
  deriving Repr, DecidableEq

/-- `InsertData.insert_data`: returns a status dict in both cases — on a
driver error it catches the exception and *returns*
`{"status": False, "message": ...}` instead of raising anything. -/
def insert_data (dbFail : Option String) : PyOutcome InsertStatusDict :=
  match dbFail with
  | none => .ret { status := true, message := "Course inserted successfully" }
  | some msg => .ret { status := false, message := "Error inserting Course: " ++ msg }

/-- `ModuleGraphgenerator.generate_module` seen as a call outcome: on an
internal error its `except` clause *returns* the `CustomException` object
(`return CustomException(e, sys)`) as an ordinary value instead of raising
it. -/
def generate_module_outcome (o : ModuleOracles) (moduleIds : Nat → String)
    (fail : Option String) (desc : CourseDoc) : PyOutcome ModGraphResult :=
  .ret (generate_module o moduleIds fail desc).1

/-! ## Authentication

From `AuthComponent` in `src/components/auth.py` and the user schema of
`src/schemas/users.py`.  The Supabase `users` table is a list of records;
bcrypt hashing and verification and JWT creation are abstract function
parameters. -/

/-- A row of the Supabase `users` table. -/
structure UserRecord where
  id : String
  email : String
  password : String
  role : String
  created_at : String
  full_name : Option String := none
  organization_name : Option String := none
  deriving Repr, DecidableEq

/-- The `UserResponse` schema. -/
structure UserResponse where
  id : String
  email : String
  role : String
  full_name : Option String := none
  organization_name : Option String := none
  deriving Repr, DecidableEq

/-- The `TokenResponse` schema (`user` inlined). -/
structure TokenResponse where
  access_token : String
  token_type : String
  user : UserResponse
  deriving Repr, DecidableEq

/-- `UserResponse` built from a table row (`.get` on the optional fields). -/
def userResponseOf (u : UserRecord) : UserResponse :=
  { id := u.id
    email := u.email
    role := u.role
    full_name := u.full_name
    organization_name := u.organization_name }

/-- `AuthComponent.get_user_by_email`: the first row matching the email, or
`None`. -/
def get_user_by_email (store : List UserRecord) (email : String) :
    Option UserRecord :=
  store.find? (fun u => u.email == email)

/-- `AuthComponent.authenticate_user`: a missing user or a failing password
check raises `HTTPException(401, "Incorrect email or password")`, which its
`except HTTPException` clause re-raises as is; a successful check returns the
user row. -/
def authenticate_user (verify : String → String → Bool)
    (store : List UserRecord) (email password : String) :
    PyOutcome UserRecord :=
  match get_user_by_email store email with
  | none => .raised (.httpException 401 "Incorrect email or password")
  | some user =>
    if verify password user.password then .ret user
    else .raised (.httpException 401 "Incorrect email or password")

/-- `AuthComponent.login`: authenticates, then returns a bearer token with
the user data.  Its `except Exception` clause has no preceding
`except HTTPException` re-raise, so the 401 raised by `authenticate_user` is
caught and re-raised wrapped inside a `CustomException`. -/
def login (verify : String → String → Bool) (mkToken : String → String)
    (store : List UserRecord) (email password : String) :
    PyOutcome TokenResponse :=
  match authenticate_user verify store email password with
  | .raised e =>
    .raised (.customException ("wrapped: " ++
      match e with
      | .httpException s d => toString s ++ " " ++ d
      | .customException m => m
      | .plainException m => m))
  | .ret user =>
    .ret { access_token := mkToken user.id
           token_type := "bearer"
           user := userResponseOf user }

/-- `AuthComponent.register_user`: an existing email raises
`HTTPException(400, "User with this email already exists")` (re-raised as is
by the `except HTTPException` clause) and writes nothing; otherwise exactly
one row is inserted, with the hashed password, the current timestamp, and the
role-specific field (`full_name` for administrator or course_creator,
`organization_name` for organization), and the created user's data is
returned.  The new store is returned alongside the outcome. -/
def register_user (hash : String → String) (now newId : String)
    (store : List UserRecord) (email password role : String)
    (full_name organization_name : Option String) :
    PyOutcome UserResponse × List UserRecord :=
  match get_user_by_email store email with
  | some _ =>
    (.raised (.httpException 400 "User with this email already exists"), store)
  | none =>
    let created : UserRecord :=
      { id := newId
        email := email
        password := hash password
        role := role
        created_at := now
        full_name :=
          if role = "administrator" ∨ role = "course_creator" then full_name
          else none
        organization_name :=
          if role = "organization" then organization_name else none }
    (.ret (userResponseOf created), store ++ [created])

/-! ## Declared-async inventory

Transcribed syntactic facts of the source tree: the thirteen callables the
repository declares with `async def`, and the number of `await` expressions
in each body.  Every other function or method in the repository is a plain
`def`.  The repository uses no threads, locks, task groups or executors. -/

/-- A callable of the repository, with its declaration form. -/
structure PyCallable where
  name : String
  isAsyncDef : Bool
  awaitCount : Nat
  deriving Repr, DecidableEq

/-- The `async def` declarations of the repository (all of `main.py`,
`api/index.py`, `src/utils/auth.py` and `src/api/v1/endpoints/auth.py`;
no other file declares one). -/
def asyncDeclaredCallables : List PyCallable :=
  [{ name := "main.py::startup_db_client", isAsyncDef := true, awaitCount := 0 },
   { name := "main.py::global_exception_handler", isAsyncDef := true, awaitCount := 0 },
   { name := "api/index.py::handler", isAsyncDef := true, awaitCount := 1 },
   { name := "src/utils/auth.py::get_current_user", isAsyncDef := true, awaitCount := 0 },
   { name := "src/utils/auth.py::get_current_active_user", isAsyncDef := true, awaitCount := 0 },
   { name := "src/utils/auth.py::register_user", isAsyncDef := true, awaitCount := 0 },
   { name := "src/api/v1/endpoints/auth.py::get_current_user", isAsyncDef := true, awaitCount := 0 },
   { name := "src/api/v1/endpoints/auth.py::get_current_active_user", isAsyncDef := true, awaitCount := 0 },
   { name := "src/api/v1/endpoints/auth.py::register_administrator", isAsyncDef := true, awaitCount := 0 },
   { name := "src/api/v1/endpoints/auth.py::register_course_creator", isAsyncDef := true, awaitCount := 0 },
   { name := "src/api/v1/endpoints/auth.py::register_organization", isAsyncDef := true, awaitCount := 0 },
   { name := "src/api/v1/endpoints/auth.py::login", isAsyncDef := true, awaitCount := 0 },
   { name := "src/api/v1/endpoints/auth.py::get_user_profile", isAsyncDef := true, awaitCount := 0 }]

/-! ## Helper lemmas -/

lemma clampScore_nonneg (x : ℤ) : 0 ≤ clampScore x :=
  le_max_left 0 _

lemma clampScore_le_hundred (x : ℤ) : clampScore x ≤ 100 :=
  max_le (by norm_num) (min_le_left _ _)

lemma clampScore_lt_seventy (x : ℤ) : clampScore x < 70 ↔ x < 70 := by
  unfold clampScore
  rcases le_total x 100 with h | h <;> rcases le_total 0 x with h' | h' <;>
    simp [max_def, min_def, h, h'] <;> omega

/-- A concrete user row used by witnesses. -/
def wUser : UserRecord :=
  { id := "U1", email := "u@e.x", password := "h", role := "administrator",
    created_at := "t" }

/-! ## C9: lesson evaluation score bounds and threshold -/

/-- C9: for every lesson, `evaluate_lesson` returns a `quality_score` in
`[0, 100]` (the accumulated deductions are clamped with
`max(0, min(100, score))`), and `passes_threshold` holds exactly when
`quality_score >= 70`. -/
theorem C9_evaluate_lesson_bounds (l : LessonItem) (ctx : Option RelevanceContext) :
    0 ≤ (evaluate_lesson l ctx).quality_score ∧
    (evaluate_lesson l ctx).quality_score ≤ 100 ∧
    ((evaluate_lesson l ctx).passes_threshold = true ↔
      70 ≤ (evaluate_lesson l ctx).quality_score) := by
  refine ⟨clampScore_nonneg _, clampScore_le_hundred _, ?_⟩
  exact decide_eq_true_iff

/-! ## C2: failure signalling of the cited operations -/

/-- C2 counterexample: `InsertData.insert_data` surfaces a database failure
by *returning* a status dictionary, not by raising a `CustomException`. -/
theorem C2_counterexample :
    insert_data (some "boom") =
      .ret { status := false, message := "Error inserting Course: boom" } ∧
    (insert_data (some "boom")).raisedCustomException = false :=
  ⟨rfl, rfl⟩

/-- C2 (amended): failures are not uniformly surfaced by raising
`CustomException`: `insert_data` returns a status dict instead of raising,
`insert_one_document` raises a plain `Exception`, and
`ModuleGraphgenerator.generate_module` returns the `CustomException` object
as a value (so a failing course generation then aborts with
`raisedCustom` only at the `generate_course` level). -/
theorem C2_failure_signalling (msg : String) :
    insert_data (some msg) =
      .ret { status := false, message := "Error inserting Course: " ++ msg } ∧
    (insert_data (some msg)).raisedCustomException = false ∧
    insert_one_document (some msg) =
      .raised (.plainException ("Mongo insert failed: " ++ msg)) ∧
    (insert_one_document (some msg)).raisedCustomException = false ∧
    (∀ (o : ModuleOracles) (mids : Nat → String) (desc : CourseDoc),
      generate_module_outcome o mids (some msg) desc =
        .ret (.excObject (.customException msg)) ∧
      (generate_module_outcome o mids (some msg) desc).raisedCustomException = false) :=
  ⟨rfl, rfl, rfl, rfl, fun _ _ _ => ⟨rfl, rfl⟩⟩

/-! ## C3: login failure shape -/

/-- C3 counterexample: with no matching user, the component `login` does not
fail with the HTTP 401 — the 401 raised inside `authenticate_user` is caught
by `login`'s blanket `except Exception` and re-raised wrapped in a
`CustomException`. -/
theorem C3_counterexample :
    login (fun _ _ => false) (fun _ => "tok") [] "a@b.c" "pw" =
      .raised (.customException ("wrapped: 401 Incorrect email or password")) ∧
    login (fun _ _ => false) (fun _ => "tok") [] "a@b.c" "pw" ≠
      .raised (.httpException 401 "Incorrect email or password") := by
  exact ⟨rfl, by decide⟩

/-- C3 (amended): on a missing email or a failing password check,
`authenticate_user` raises HTTP 401 "Incorrect email or password", but
`login` — whose `except Exception` has no preceding `except HTTPException`
re-raise — surfaces that failure wrapped in a `CustomException`; on success
`login` returns an access token with `token_type` "bearer" and the user's
data. -/
theorem C3_login (verify : String → String → Bool) (mkToken : String → String)
    (store : List UserRecord) (email password : String) :
    ((get_user_by_email store email = none ∨
      (∃ u, get_user_by_email store email = some u ∧ verify password u.password = false)) →
      authenticate_user verify store email password =
        .raised (.httpException 401 "Incorrect email or password") ∧
      login verify mkToken store email password =
        .raised (.customException ("wrapped: 401 Incorrect email or password"))) ∧
    (∀ u, get_user_by_email store email = some u → verify password u.password = true →
      login verify mkToken store email password =
        .ret { access_token := mkToken u.id, token_type := "bearer",
               user := userResponseOf u }) := by
  constructor
  · intro h
    have hauth : authenticate_user verify store email password =
        .raised (.httpException 401 "Incorrect email or password") := by
      rcases h with h | ⟨u, hu, hv⟩
      · unfold authenticate_user
        rw [h]
      · unfold authenticate_user
        rw [hu]
        simp [hv]
    refine ⟨hauth, ?_⟩
    unfold login
    rw [hauth]
    rfl
  · intro u hu hv
    unfold login authenticate_user
    rw [hu]
    simp [hv]

/-- C3 witness: the amended theorem applied at an empty store (failure) and
at a one-user store with a succeeding password check (success). -/
theorem C3_login_witness :
    login (fun _ _ => false) (fun _ => "t") [] "a@b.c" "pw" =
      .raised (.customException ("wrapped: 401 Incorrect email or password")) ∧
    login (fun _ _ => true) (fun _ => "t") [wUser] "u@e.x" "pw" =
      .ret { access_token := "t", token_type := "bearer", user := userResponseOf wUser } := by
  constructor
  · exact ((C3_login (fun _ _ => false) (fun _ => "t") [] "a@b.c" "pw").1 (Or.inl rfl)).2
  · exact (C3_login (fun _ _ => true) (fun _ => "t") [wUser] "u@e.x" "pw").2 wUser rfl rfl

/-! ## C6: registration -/

/-- C6: registering an existing email raises HTTP 400 and leaves the store
unchanged; a new email inserts exactly one row, with the hashed password
and the role-specific field, and returns the created user's data. -/
theorem C6_register_user (hash : String → String) (now newId : String)
    (store : List UserRecord) (email password role : String)
    (fn org : Option String) :
    ((∃ u ∈ store, u.email = email) →
      register_user hash now newId store email password role fn org =
        (.raised (.httpException 400 "User with this email already exists"), store)) ∧
    ((∀ u ∈ store, u.email ≠ email) →
      register_user hash now newId store email password role fn org =
        (.ret { id := newId, email := email, role := role,
                full_name :=
                  if role = "administrator" ∨ role = "course_creator" then fn else none,
                organization_name :=
                  if role = "organization" then org else none },
         store ++ [{ id := newId, email := email, password := hash password,
                     role := role, created_at := now,
                     full_name :=
                       if role = "administrator" ∨ role = "course_creator" then fn
                       else none,
                     organization_name :=
                       if role = "organization" then org else none }])) := by
  constructor
  · rintro ⟨u, hu, he⟩
    unfold register_user
    rcases hfind : get_user_by_email store email with _ | v
    · exfalso
      rw [get_user_by_email, List.find?_eq_none] at hfind
      exact hfind u hu (by simp [he])
    · rfl
  · intro h
    unfold register_user
    rcases hfind : get_user_by_email store email with _ | v
    · rfl
    · exfalso
      have hv := List.find?_some hfind
      have hmem := List.mem_of_find?_eq_some hfind
      exact h v hmem (by simpa using hv)

/-- C6 witness: the theorem applied at a store already containing the email
(rejection) and at an empty store (insertion of one organization row). -/
theorem C6_register_user_witness :
    register_user (fun p => p ++ "#h") "t0" "U2" [wUser] "u@e.x" "pw"
        "administrator" (some "Ada") none =
      (.raised (.httpException 400 "User with this email already exists"), [wUser]) ∧
    register_user (fun p => p ++ "#h") "t0" "U2" [] "o@e.x" "pw"
        "organization" none (some "Org") =
      (.ret { id := "U2", email := "o@e.x", role := "organization",
              full_name :=
                if ("organization" : String) = "administrator" ∨
                   ("organization" : String) = "course_creator" then none else none,
              organization_name :=
                if ("organization" : String) = "organization" then some "Org" else none },
       [{ id := "U2", email := "o@e.x", password := "pw#h", role := "organization",
          created_at := "t0",
          full_name :=
            if ("organization" : String) = "administrator" ∨
               ("organization" : String) = "course_creator" then none else none,
          organization_name :=
            if ("organization" : String) = "organization" then some "Org" else none }]) := by
  constructor
  · exact (C6_register_user (fun p => p ++ "#h") "t0" "U2" [wUser] "u@e.x" "pw"
      "administrator" (some "Ada") none).1 ⟨wUser, by simp, rfl⟩
  · exact (C6_register_user (fun p => p ++ "#h") "t0" "U2" [] "o@e.x" "pw"
      "organization" none (some "Org")).2 (by simp)

/-! ## C7: declared-async operations -/

/-- C7 counterexample: `get_current_user` (cited by the claim) is declared
`async def`, so not every operation of the repository is defined as a plain
synchronous call; in all, thirteen callables are declared `async def`. -/
theorem C7_counterexample :
    ({ name := "src/utils/auth.py::get_current_user", isAsyncDef := true,
       awaitCount := 0 } : PyCallable) ∈ asyncDeclaredCallables ∧
    (asyncDeclaredCallables.filter (fun c => c.isAsyncDef)).length = 13 := by
  decide

/-- C7 (amended): thirteen callables are declared `async def` (the FastAPI
endpoint/dependency convention and the Vercel ASGI wrapper), but apart from
the wrapper `handler` — whose single `await` hands the request to the wrapped
app — none contains an `await`, so each operation body runs to completion
without yielding, and the repository has no other concurrency construct. -/
theorem C7_async_inventory :
    asyncDeclaredCallables.all (fun c => c.isAsyncDef) = true ∧
    asyncDeclaredCallables.all
      (fun c => c.awaitCount = 0 || c.name == "api/index.py::handler") = true ∧
    ((asyncDeclaredCallables.filter (fun c => c.awaitCount ≠ 0)).map
      (fun c => c.name)) = ["api/index.py::handler"] := by
  decide

/-! ## C10: markdown section parsing -/

/-- `_parse_markdown_sections` on a pre-split line list. -/
def parse_markdown_lines (lines : List String) : List (String × String) :=
  mdFlush (lines.foldl mdStep ⟨[], none, []⟩)

lemma foldl_mdStep_init (pre : List String)
    (h : ∀ l ∈ pre, strStartsWith l "## " = false) :
    pre.foldl mdStep ⟨[], none, []⟩ = ⟨[], none, []⟩ := by
  induction pre with
  | nil => rfl
  | cons a t ih =>
    have ha : strStartsWith a "## " = false := h a (by simp)
    have step : mdStep ⟨[], none, []⟩ a = ⟨[], none, []⟩ := by
      simp [mdStep, ha]
    rw [List.foldl_cons, step]
    exact ih (fun l hl => h l (by simp [hl]))

/-- C10: `_parse_markdown_sections` discards every line before the first
`## ` line; on text with no `## ` line it returns the empty dict, and
`expand_lesson_content` then sets the lesson content to the empty string. -/
theorem C10_markdown_sections :
    (∀ (pre lines : List String), (∀ l ∈ pre, strStartsWith l "## " = false) →
      parse_markdown_lines (pre ++ lines) = parse_markdown_lines lines) ∧
    (∀ text : String, (∀ l ∈ pyLines text, strStartsWith l "## " = false) →
      parse_markdown_sections text = []) ∧
    (∀ (lesson : LessonItem) (ctx : ModuleContextL) (response : String),
      (∀ l ∈ pyLines response, strStartsWith l "## " = false) →
      ((expand_lesson_content (some response) lesson ctx).1).content = "") := by
  have hempty : ∀ text : String, (∀ l ∈ pyLines text, strStartsWith l "## " = false) →
      parse_markdown_sections text = [] := by
    intro text h
    show mdFlush ((pyLines text).foldl mdStep ⟨[], none, []⟩) = []
    rw [foldl_mdStep_init _ h]
    rfl
  refine ⟨?_, hempty, ?_⟩
  · intro pre lines h
    unfold parse_markdown_lines
    rw [List.foldl_append, foldl_mdStep_init _ h]
  · intro lesson ctx response h
    have hp : parse_markdown_sections response = [] := hempty response h
    show (let content_sections := parse_markdown_sections response
          let l1 := { lesson with
            content := ensure_markdown_consistency (extract_main_content content_sections) }
          let l2 :=
            if lesson.type = "read_and_execute" then
              { l1 with
                instruction := some (ensure_markdown_consistency
                  (sectionsGet content_sections "instruction" ""))
                expected_output := some (ensure_markdown_consistency
                  (sectionsGet content_sections "expected_output" ""))
                answer := some (ensure_markdown_consistency
                  (sectionsGet content_sections "answer" "")) }
            else l1
          l2).content = ""
    simp only [hp]
    by_cases ht : lesson.type = "read_and_execute" <;> simp [ht] <;> rfl

/-- C10 witness: the theorem applied to concrete section-free text. -/
theorem C10_markdown_sections_witness :
    parse_markdown_sections "hello\nworld" = [] ∧
    ((expand_lesson_content (some "hello\nworld")
        { lesson_id := "L9", title := "T", type := "read", content := "outline" }
        { title := "M", description := "D", module_id := "MOD9" }).1).content = "" := by
  constructor
  · exact C10_markdown_sections.2.1 "hello\nworld" (by decide)
  · exact C10_markdown_sections.2.2
      { lesson_id := "L9", title := "T", type := "read", content := "outline" }
      { title := "M", description := "D", module_id := "MOD9" } "hello\nworld" (by decide)

/-! ## C5: description quality scoring -/

/-- C5 counterexample: for "master python" (marketing and technology
criteria hold, the length criterion fails) the returned `quality_score` is
the two-decimal rounding 83.33, not the raw `(0.5 + 1.0 + 1.0) / 3 * 100`. -/
theorem C5_counterexample :
    (check_description_quality "master python").quality_score ≠
      ((1/2 : ℚ) + 1 + 1) / 3 * 100 ∧
    (check_description_quality "master python").passes_threshold = true ∧
    lengthCriterion "master python" = false ∧
    marketingCriterion "master python" = true ∧
    specificityCriterion "master python" = true := by
  have h1 : lengthCriterion "master python" = false := by decide
  have h2 : marketingCriterion "master python" = true := by decide
  have h3 : specificityCriterion "master python" = true := by decide
  refine ⟨?_, ?_, h1, h2, h3⟩
  · have hq : (check_description_quality "master python").quality_score =
        roundTo2 (((if lengthCriterion "master python" then (1 : ℚ) else 1/2) +
          (if marketingCriterion "master python" then (1 : ℚ) else 1/2) +
          (if specificityCriterion "master python" then (1 : ℚ) else 1/2)) / 3 * 100) := rfl
    rw [hq, h1, h2, h3]
    norm_num [roundTo2, round_eq]
  · have hp : (check_description_quality "master python").passes_threshold =
        decide ((((if lengthCriterion "master python" then (1 : ℚ) else 1/2) +
          (if marketingCriterion "master python" then (1 : ℚ) else 1/2) +
          (if specificityCriterion "master python" then (1 : ℚ) else 1/2)) / 3 * 100) ≥ 80) := rfl
    rw [hp, h1, h2, h3]
    simp only [decide_eq_true_eq]
    norm_num

/-- C5 (amended): `check_description_quality` returns
`quality_score = round((length + marketing + specificity) / 3 * 100, 2)` with
each component 1.0 when its criterion holds and 0.5 otherwise, and
`passes_threshold` (computed on the unrounded score) holds exactly when at
least two of the three criteria are met. -/
theorem C5_description_quality (d : String) :
    (check_description_quality d).quality_score =
      roundTo2 (((if lengthCriterion d then (1 : ℚ) else 1/2) +
        (if marketingCriterion d then (1 : ℚ) else 1/2) +
        (if specificityCriterion d then (1 : ℚ) else 1/2)) / 3 * 100) ∧
    ((check_description_quality d).passes_threshold = true ↔
      2 ≤ descriptionCriteriaMet d) := by
  refine ⟨rfl, ?_⟩
  have hp : (check_description_quality d).passes_threshold =
      decide ((((if lengthCriterion d then (1 : ℚ) else 1/2) +
        (if marketingCriterion d then (1 : ℚ) else 1/2) +
        (if specificityCriterion d then (1 : ℚ) else 1/2)) / 3 * 100) ≥ 80) := rfl
  rw [hp]
  cases h1 : lengthCriterion d <;> cases h2 : marketingCriterion d <;>
    cases h3 : specificityCriterion d <;>
      simp [descriptionCriteriaMet, h1, h2, h3] <;> norm_num

/-! ## C4: quality gating of the improve operations -/

lemma check_content_structure_quality (content : String) :
    (check_content_structure content).structure_quality = "needs_improvement" ∨
    ((check_content_structure content).has_sections = true ∧
     500 < (check_content_structure content).content_length ∧
     (check_content_structure content).has_formatting = true) := by
  unfold check_content_structure
  dsimp only
  split_ifs with h
  · right
    simp only [Bool.and_eq_true, decide_eq_true_eq] at h
    exact ⟨h.1.1.1, h.1.1.2, h.2⟩
  · left
    rfl

/-- A lesson evaluation with no improvement suggestions scores at least 70:
the only deduction that can fire without leaving a suggestion is the
20-point `needs_improvement` deduction. -/
lemma lessonSuggestions_nil_score (sc : ContentStructureCheck) (cq : CodeQualityCheck)
    (exq : ExerciseQualityCheck) (mr : RelevanceCheck)
    (hq : sc.structure_quality = "needs_improvement" ∨
          (sc.has_sections = true ∧ 500 < sc.content_length ∧ sc.has_formatting = true))
    (hnil : lessonSuggestions sc cq exq mr = []) :
    70 ≤ rawLessonScore sc cq exq mr := by
  have hrel : mr.is_relevant = true := by
    cases h : mr.is_relevant
    · exact absurd hnil (by simp [lessonSuggestions, h])
    · rfl
  have hcomm : cq.has_code = true → cq.has_comments = true := by
    intro hc
    cases h : cq.has_comments
    · exact absurd hnil (by simp [lessonSuggestions, hc, h])
    · rfl
  have hind : cq.has_code = true → cq.has_proper_indentation = true := by
    intro hc
    cases h : cq.has_proper_indentation
    · exact absurd hnil (by simp [lessonSuggestions, hc, h])
    · rfl
  have herr : cq.has_code = true → cq.has_error_handling = true := by
    intro hc
    cases h : cq.has_error_handling
    · exact absurd hnil (by simp [lessonSuggestions, hc, h])
    · rfl
  have hsteps : exq.is_exercise = true → exq.has_clear_steps = true := by
    intro hc
    cases h : exq.has_clear_steps
    · exact absurd hnil (by simp [lessonSuggestions, hc, h])
    · rfl
  have hout : exq.is_exercise = true → exq.has_clear_output = true := by
    intro hc
    cases h : exq.has_clear_output
    · exact absurd hnil (by simp [lessonSuggestions, hc, h])
    · rfl
  have hstruct : sc.structure_quality = "needs_improvement" →
      sc.has_sections = true ∧ ¬ sc.content_length < 300 ∧ sc.has_formatting = true := by
    intro hsq
    refine ⟨?_, ?_, ?_⟩
    · cases h : sc.has_sections
      · exact absurd hnil (by simp [lessonSuggestions, hsq, h])
      · rfl
    · intro hc
      exact absurd hnil (by simp [lessonSuggestions, hsq, hc])
    · cases h : sc.has_formatting
      · exact absurd hnil (by simp [lessonSuggestions, hsq, h])
      · rfl
  unfold rawLessonScore
  by_cases hsq : sc.structure_quality = "needs_improvement"
  · obtain ⟨hhs, hlen, hfmt⟩ := hstruct hsq
    by_cases hc : cq.has_code = true <;> by_cases he : exq.is_exercise = true <;>
      simp [hsq, hhs, hlen, hfmt, hrel, hc, he, hcomm, hind, herr, hsteps, hout,
        Bool.not_eq_true] at *
  · obtain ⟨hhs, hlen5, hfmt⟩ := hq.resolve_left hsq
    have hlen : ¬ sc.content_length < 300 := by omega
    by_cases hc : cq.has_code = true <;> by_cases he : exq.is_exercise = true <;>
      simp [hsq, hhs, hlen, hfmt, hrel, hc, he, hcomm, hind, herr, hsteps, hout,
        Bool.not_eq_true] at *

/-- A lesson that fails the evaluation threshold always has at least one
improvement suggestion. -/
lemma evaluate_fail_suggestions (l : LessonItem) (ctx : Option RelevanceContext)
    (h : (evaluate_lesson l ctx).passes_threshold = false) :
    (evaluate_lesson l ctx).improvement_suggestions ≠ [] := by
  intro hnil
  have hnil' : lessonSuggestions (check_content_structure l.content)
      (lessonCodeQuality l) (lessonExerciseQuality l) (lessonRelevance l ctx) = [] := hnil
  have hge := lessonSuggestions_nil_score _ _ _ _ (check_content_structure_quality l.content) hnil'
  have hpb : (decide (70 ≤ clampScore (rawLessonScore (check_content_structure l.content)
      (lessonCodeQuality l) (lessonExerciseQuality l) (lessonRelevance l ctx)))) = false := h
  have h' := of_decide_eq_false hpb
  have hqs : clampScore (rawLessonScore (check_content_structure l.content)
      (lessonCodeQuality l) (lessonExerciseQuality l) (lessonRelevance l ctx)) < 70 := by
    omega
  have hraw := (clampScore_lt_seventy _).1 hqs
  omega

/-- C4 (amended): modules and lessons that pass the quality threshold are
returned unchanged with no LLM call; a failing module with at least one
improvement suggestion, and every failing lesson (a failing lesson always
carries a suggestion), get exactly one improvement LLM call; but a failing
module all of whose five criteria score at least 0.7 has no suggestions and
is returned unchanged with no LLM call. -/
theorem C4_improve_gating :
    (∀ (m : ModuleData) (oracle : Option ModuleData),
      ((check_module_quality m).passes_threshold = true →
        improve_module oracle m (check_module_quality m) = (m, [])) ∧
      ((check_module_quality m).passes_threshold = false →
        (check_module_quality m).improvement_suggestions ≠ [] →
        ((improve_module oracle m (check_module_quality m)).2.filter Event.isLlm).length = 1) ∧
      ((check_module_quality m).passes_threshold = false →
        (check_module_quality m).improvement_suggestions = [] →
        improve_module oracle m (check_module_quality m) = (m, []))) ∧
    (∀ (l : LessonItem) (ctx : Option RelevanceContext) (oracle : Option String),
      ((evaluate_lesson l ctx).passes_threshold = true →
        improve_lesson oracle l (evaluate_lesson l ctx) = (l, [])) ∧
      ((evaluate_lesson l ctx).passes_threshold = false →
        ((improve_lesson oracle l (evaluate_lesson l ctx)).2.filter Event.isLlm).length = 1)) := by
  constructor
  · intro m oracle
    refine ⟨?_, ?_, ?_⟩
    · intro h
      simp [improve_module, h]
    · intro h1 h2
      cases oracle <;> simp [improve_module, h1, h2, Event.isLlm]
    · intro h1 h2
      simp [improve_module, h1, h2]
  · intro l ctx oracle
    constructor
    · intro h
      simp [improve_lesson, h]
    · intro h
      have hs := evaluate_fail_suggestions l ctx h
      cases oracle <;>
        simp [improve_lesson, h, List.isEmpty_iff, hs, Event.isLlm]

/-- A module that fails the quality threshold (score 78) while every single
criterion scores at least 0.7, so that no improvement suggestion is
generated. -/
def cexModule : ModuleData :=
  { title := "Advanced Data Structures Overview"
    description := "This module covers python tooling in depth, giving a broad tour of parsers, compilers, and interpreters, and it surveys memory, processes, sockets, files, threads, queues, stacks, heaps, graphs, trees, tables, and many other foundational ideas used daily by working engineers."
    learning_objectives := ["Analyze tradeoffs of arrays", "Compare common tree shapes",
      "Evaluate structure choices", "Design compact layouts", "Construct processing pipelines"]
    key_topics := ["arrays and lists", "hash table basics", "binary tree forms",
      "graph edge sets", "queue ring buffers", "stack frame usage", "heap order rules"]
    practical_applications := ["Used in industry systems", "Applied in business reporting",
      "Deployed in production services"] }

set_option maxRecDepth 16000 in
lemma cexModule_criteria :
    moduleCriteriaOf cexModule = ⟨7/10, 4/5, 4/5, 3/4, 17/20⟩ := by
  have h1a : titleWordCountOk cexModule.title = true := by decide
  have h1b : titleHasActionVerb cexModule.title = false := by decide
  have h1c : ¬ cexModule.title = "" := by decide
  have h2a : 30 ≤ (pyWords cexModule.description).length := by decide
  have h2b : moduleDescTechWords.any
      (fun w => containsSub (pyLower cexModule.description) w) = true := by decide
  have h2c : moduleDescValueWords.any
      (fun w => containsSub (pyLower cexModule.description) w) = false := by decide
  have h2d : ¬ cexModule.description = "" := by decide
  have h3a : (4 ≤ cexModule.learning_objectives.length &&
      cexModule.learning_objectives.length ≤ 8) = true := by decide
  have h3b : bloomObjectiveCount cexModule.learning_objectives = 5 := by decide
  have h3c : ¬ cexModule.learning_objectives = [] := by decide
  have h4a : (6 ≤ cexModule.key_topics.length && cexModule.key_topics.length ≤ 15) = true := by
    decide
  have h4b : longTopicCount cexModule.key_topics = 7 := by decide
  have h4c : ¬ cexModule.key_topics = [] := by decide
  have h5a : 3 ≤ cexModule.practical_applications.length := by decide
  have h5b : industryAppCount cexModule.practical_applications = 3 := by decide
  have h5c : ¬ cexModule.practical_applications = [] := by decide
  unfold moduleCriteriaOf check_title_quality check_description_quality_module
    check_learning_objectives check_key_topics check_practical_relevance
  rw [h3b, h4b, h5b]
  rw [if_neg h1c, if_neg h2d, if_neg h3c, if_neg h4c, if_neg h5c,
    if_pos h2a, if_pos h5a]
  simp only [h1a, h1b, h2b, h2c, h3a, h4a, if_true, Bool.false_eq_true, if_false,
    ModuleCriteria.mk.injEq]
  refine ⟨?_, ?_, ?_, ?_, ?_⟩ <;> norm_num [min_def]

lemma cexModule_fails :
    (check_module_quality cexModule).passes_threshold = false := by
  have hq : (check_module_quality cexModule).passes_threshold =
      decide ((((moduleCriteriaOf cexModule).title_quality +
        (moduleCriteriaOf cexModule).description_quality +
        (moduleCriteriaOf cexModule).learning_objectives_quality +
        (moduleCriteriaOf cexModule).key_topics_quality +
        (moduleCriteriaOf cexModule).practical_relevance) / 5 * 100) ≥ 80) := rfl
  rw [hq, cexModule_criteria]
  simp only [decide_eq_false_iff_not]
  norm_num

lemma cexModule_no_suggestions :
    (check_module_quality cexModule).improvement_suggestions = [] := by
  have hs : (check_module_quality cexModule).improvement_suggestions =
      module_improvement_suggestions (moduleCriteriaOf cexModule) := rfl
  rw [hs, cexModule_criteria]
  norm_num [module_improvement_suggestions]

/-- C4 counterexample: `cexModule` fails the quality threshold, yet
`improve_module` returns it unchanged and performs no LLM call, because its
quality report carries no improvement suggestions. -/
theorem C4_counterexample :
    (check_module_quality cexModule).passes_threshold = false ∧
    (check_module_quality cexModule).improvement_suggestions = [] ∧
    improve_module none cexModule (check_module_quality cexModule) = (cexModule, []) := by
  refine ⟨cexModule_fails, cexModule_no_suggestions, ?_⟩
  simp [improve_module, cexModule_fails, cexModule_no_suggestions]

lemma emptyModule_criteria : moduleCriteriaOf {} = ⟨0, 0, 0, 0, 0⟩ := rfl

lemma emptyModule_fails : (check_module_quality ({} : ModuleData)).passes_threshold = false := by
  have hq : (check_module_quality ({} : ModuleData)).passes_threshold =
      decide ((((moduleCriteriaOf {}).title_quality +
        (moduleCriteriaOf {}).description_quality +
        (moduleCriteriaOf {}).learning_objectives_quality +
        (moduleCriteriaOf {}).key_topics_quality +
        (moduleCriteriaOf {}).practical_relevance) / 5 * 100) ≥ 80) := rfl
  rw [hq, emptyModule_criteria]
  simp only [decide_eq_false_iff_not]
  norm_num

lemma emptyModule_suggestions :
    (check_module_quality ({} : ModuleData)).improvement_suggestions ≠ [] := by
  have hs : (check_module_quality ({} : ModuleData)).improvement_suggestions =
      module_improvement_suggestions (moduleCriteriaOf {}) := rfl
  rw [hs, emptyModule_criteria]
  norm_num [module_improvement_suggestions]
  exact List.cons_ne_nil _ _

/-- A concrete lesson whose evaluation fails the threshold. -/
def wFailLesson : LessonItem :=
  { lesson_id := "L1", title := "T", type := "read", content := "" }

/-- C4 witness: the gating theorem applied to a failing module with
suggestions (the all-defaults module) and to a failing concrete lesson. -/
theorem C4_improve_gating_witness :
    ((improve_module none {} (check_module_quality {})).2.filter Event.isLlm).length = 1 ∧
    ((improve_lesson none wFailLesson
        (evaluate_lesson wFailLesson none)).2.filter Event.isLlm).length = 1 := by
  constructor
  · exact (C4_improve_gating.1 {} none).2.1 emptyModule_fails emptyModule_suggestions
  · exact (C4_improve_gating.2 wFailLesson none none).2 (by decide)

/-! ## C8: duplicate course names -/

/-- C8: when a course with the same name already exists, `generate_course`
returns the already-exists message, performs no LLM call and no write — the
only effect is the duplicate-check read and the database state is returned
unchanged. -/
theorem C8_duplicate_course (o : PipelineOracles) (db : CourseDB)
    (data : AddNewCourse) (uid : String)
    (h : ∃ c ∈ db.courses, c.course_name = data.course_name) :
    generate_course o db data uid =
      (.existsMsg ("Course '" ++ data.course_name ++ "' already exists."), db,
       [.dbFind .courses]) := by
  obtain ⟨c, hc, he⟩ := h
  rcases hfind : db.courses.find? (fun c => c.course_name == data.course_name) with _ | v
  · exfalso
    rw [List.find?_eq_none] at hfind
    exact hfind c hc (by simp [he])
  · unfold generate_course
    rw [hfind]

/-- Oracles with trivial responses, used by concrete runs. -/
def trivOracles : PipelineOracles :=
  { desc := { llmDescription := "", llmImprove := none }
    mods :=
      { curriculum :=
          { course := "", duration := "", num_modules := 0, tools := [], modules := [] }
        enhance := fun _ => none
        improveMod := fun _ => none }
    moduleIds := fun _ => ""
    modFail := none
    les :=
      { outlines := fun _ => { module_id := "", lessons := [] }
        lessonIds := fun _ _ => ""
        expand := fun _ _ => none
        improveLes := fun _ _ => none } }

/-- A concrete stored course document. -/
def wCourseDoc : CourseDoc :=
  { course_id := "C0", course_name := "Intro", level := "basic", image_uri := "",
    created_at := "t", is_popular := false, is_trending := false, description := "d" }

/-- A concrete generation request that collides with `wCourseDoc`. -/
def wAddCourse : AddNewCourse :=
  { course_name := "Intro", level := "basic", image_uri := "", created_at := "t" }

/-- C8 witness: the theorem applied to a database already containing the
requested course name. -/
theorem C8_duplicate_course_witness :
    generate_course trivOracles ⟨[wCourseDoc], [], []⟩ wAddCourse "NEW" =
      (.existsMsg ("Course '" ++ wAddCourse.course_name ++ "' already exists."),
       ⟨[wCourseDoc], [], []⟩, [.dbFind .courses]) := by
  exact C8_duplicate_course trivOracles ⟨[wCourseDoc], [], []⟩ wAddCourse "NEW"
    ⟨wCourseDoc, by simp, rfl⟩

/-! ## C1: stage and write ordering of a generation run -/

lemma improve_description_events (oracle : Option String) (d : String)
    (r : DescriptionQualityReport) :
    (improve_description oracle d r).2 = [] ∨
    (improve_description oracle d r).2 = [.llm .description] := by
  unfold improve_description
  split_ifs
  · exact Or.inl rfl
  · cases oracle <;> exact Or.inr rfl

lemma generate_description_events (o : DescriptionOracles) (data : AddNewCourse)
    (uid : String) :
    ((generate_description o data uid).2).all (Event.isLlmOf .description) = true := by
  by_cases hd : data.description ≠ ""
  · simp [generate_description, hd]
  · rcases hcase : improve_description o.llmImprove (stripWsQuotes o.llmDescription)
        (check_description_quality (stripWsQuotes o.llmDescription)) with ⟨f, e⟩
    have he : e = [] ∨ e = [.llm .description] := by
      have h2 := improve_description_events o.llmImprove (stripWsQuotes o.llmDescription)
        (check_description_quality (stripWsQuotes o.llmDescription))
      rw [hcase] at h2
      exact h2
    by_cases hp : (check_description_quality (stripWsQuotes o.llmDescription)).passes_threshold = true
    · simp [generate_description, hd, hp, Event.isLlmOf]
    · rcases he with he | he <;>
        simp [generate_description, hd, hp, hcase, he, Event.isLlmOf]

lemma enhance_module_events (oracle : Option EnhancedContent) (m : ModuleItem) :
    ((enhance_module oracle m).2).all (Event.isLlmOf .modulegen) = true := by
  cases oracle <;> rfl

lemma improve_module_events (oracle : Option ModuleData) (m : ModuleData)
    (r : ModuleQualityReport) :
    ((improve_module oracle m r).2).all (Event.isLlmOf .modulegen) = true := by
  unfold improve_module
  split_ifs <;> first | rfl | (cases oracle <;> rfl)

lemma processModule_events (o : ModuleOracles) (i : Nat) (m : ModuleItem) :
    ((processModule o i m).2).all (Event.isLlmOf .modulegen) = true := by
  unfold processModule
  rcases h1 : enhance_module (o.enhance i) m with ⟨em, e1⟩
  have he1 : e1.all (Event.isLlmOf .modulegen) = true := by
    have h := enhance_module_events (o.enhance i) m
    rw [h1] at h
    exact h
  by_cases hp : (check_module_quality em).passes_threshold = true
  · simp [hp, he1]
  · rcases h2 : improve_module (o.improveMod i) em (check_module_quality em) with ⟨im, e2⟩
    have he2 : e2.all (Event.isLlmOf .modulegen) = true := by
      have h := improve_module_events (o.improveMod i) em (check_module_quality em)
      rw [h2] at h
      exact h
    simp [hp, h2, List.all_append, he1, he2]

lemma module_generater_events (o : ModuleOracles) :
    ((module_generater o).2).all (Event.isLlmOf .modulegen) = true := by
  unfold module_generater
  rw [List.all_eq_true]
  intro e he
  simp only [List.mem_cons, List.mem_flatten, List.mem_map] at he
  rcases he with rfl | ⟨l, ⟨r, ⟨p, _, rfl⟩, rfl⟩, hel⟩
  · rfl
  · have h := processModule_events o p.1 p.2
    rw [List.all_eq_true] at h
    exact h e hel

lemma generate_module_events (o : ModuleOracles) (mids : Nat → String) (desc : CourseDoc) :
    ((generate_module o mids none desc).2).all (Event.isLlmOf .modulegen) = true := by
  unfold generate_module
  rcases h : module_generater o with ⟨c, evs⟩
  have h2 := module_generater_events o
  rw [h] at h2
  simpa [h] using h2

lemma expand_lesson_content_events (oracle : Option String) (l : LessonItem)
    (ctx : ModuleContextL) :
    ((expand_lesson_content oracle l ctx).2).all (Event.isLlmOf .lesson) = true := by
  cases oracle <;> rfl

lemma improve_lesson_events (oracle : Option String) (l : LessonItem)
    (ev : LessonEvaluation) :
    ((improve_lesson oracle l ev).2).all (Event.isLlmOf .lesson) = true := by
  unfold improve_lesson
  split_ifs <;> first | rfl | (cases oracle <;> rfl)

lemma check_and_improve_events (oracle : Nat → Option String) (m : ModuleLessonContent) :
    ((check_and_improve_module_quality oracle m).2).all (Event.isLlmOf .lesson) = true := by
  unfold check_and_improve_module_quality
  rw [List.all_eq_true]
  intro e he
  simp only [List.mem_flatten, List.mem_map, List.mem_filterMap, id_eq] at he
  obtain ⟨l, ⟨x, ⟨s, ⟨p, hp, hstep⟩, hid⟩, rfl⟩, hel⟩ := he
  subst hid
  rcases hfind : m.lessons.find? (fun l => l.lesson_id == p.2.lesson_id) with _ | l0 <;>
    simp only [hfind] at hstep
  · exact absurd hstep (by simp)
  · by_cases hpass : p.2.evaluation.passes_threshold = true
    · simp only [hpass, Bool.not_true, Bool.false_eq_true, if_false,
        Option.some.injEq] at hstep
      rw [← hstep] at hel
      exact absurd hel (by simp)
    · rw [Bool.not_eq_true] at hpass
      simp only [hpass, Bool.not_false, if_true, Option.some.injEq] at hstep
      rw [← hstep] at hel
      have h := improve_lesson_events (oracle p.1) l0 p.2.evaluation
      rw [List.all_eq_true] at h
      exact h e hel

lemma processLessonModule_events (o : LessonOracles) (i : Nat) (module : ModuleData) :
    ((processLessonModule o i module).2).all (Event.isLlmOf .lesson) = true := by
  unfold processLessonModule
  rw [List.all_eq_true]
  intro e he
  simp only [List.mem_cons, List.mem_append, List.mem_flatten, List.mem_map] at he
  rcases he with (rfl | ⟨l, ⟨r, ⟨q, _, rfl⟩, rfl⟩, hel⟩) | hel
  · rfl
  · have h := expand_lesson_content_events (o.expand i q.1) q.2
      { title := module.title, description := module.description,
        module_id := module.module_id, level := none }
    rw [List.all_eq_true] at h
    exact h e hel
  · have h := check_and_improve_events (o.improveLes i)
      { module_id := (o.outlines i).module_id
        lessons :=
          List.map Prod.fst
            (List.map
              (fun (q : Nat × LessonItem) =>
                expand_lesson_content (o.expand i q.1) q.2
                  { title := module.title, description := module.description,
                    module_id := module.module_id, level := none })
              (List.map
                (fun (q : Nat × LessonItem) =>
                  { lesson_id := o.lessonIds i q.1, title := q.2.title, type := q.2.type,
                    content := q.2.content, instruction := q.2.instruction,
                    expected_output := q.2.expected_output, answer := q.2.answer,
                    outline := q.2.outline : LessonItem })
                (o.outlines i).lessons.enum).enum) }
    rw [List.all_eq_true] at h
    exact h e hel

lemma generate_lessons_events (o : LessonOracles) (mods : List ModuleData) (cid : String) :
    ((generate_lessons_for_each_module o mods cid).2).all (Event.isLlmOf .lesson) = true := by
  unfold generate_lessons_for_each_module
  rw [List.all_eq_true]
  intro e he
  simp only [List.mem_flatten, List.mem_map] at he
  obtain ⟨l, ⟨r, ⟨p, _, rfl⟩, rfl⟩, hel⟩ := he
  have h := processLessonModule_events o p.1 p.2
  rw [List.all_eq_true] at h
  exact h e hel

/-- C1: a successful course-generation run performs, in order: the duplicate
check, the description-stage LLM calls, the write to the courses collection,
the module-stage LLM calls, the write to the modules collection, the
lesson-stage LLM calls, and finally the write to the lessons collection.  In
particular no module-stage call precedes the courses write, no lesson-stage
call precedes the modules write, and the lessons write is last. -/
theorem C1_pipeline_order (o : PipelineOracles) (db : CourseDB) (data : AddNewCourse)
    (uid : String)
    (hnew : db.courses.find? (fun c => c.course_name == data.course_name) = none)
    (hok : o.modFail = none) :
    ∃ (descE modE lesE : List Event) (db' : CourseDB),
      generate_course o db data uid =
        (.inserted, db',
         .dbFind .courses :: descE ++ .dbInsert .courses :: modE ++
           .dbInsert .modules :: lesE ++ [.dbInsert .lessons]) ∧
      descE.all (Event.isLlmOf .description) = true ∧
      modE.all (Event.isLlmOf .modulegen) = true ∧
      lesE.all (Event.isLlmOf .lesson) = true := by
  rcases hdesc : generate_description o.desc data uid with ⟨descDoc, descE⟩
  rcases hmg : module_generater o.mods with ⟨curr, modE⟩
  have hmod : generate_module o.mods o.moduleIds o.modFail descDoc =
      (.ok { course_id := descDoc.course_id, level := descDoc.level, course := curr.course,
             duration := curr.duration, num_modules := curr.num_modules, tools := curr.tools,
             modules := curr.modules.enum.map
               (fun p => { p.2 with module_id := o.moduleIds p.1 }) },
       modE) := by
    rw [hok]
    unfold generate_module
    rw [hmg]
  rcases hles : generate_lessons_for_each_module o.les
      (curr.modules.enum.map (fun p => { p.2 with module_id := o.moduleIds p.1 })) uid
    with ⟨lout, lesE⟩
  refine ⟨descE, modE, lesE,
    { courses := db.courses ++ [descDoc]
      modules := db.modules ++
        [{ course_id := descDoc.course_id, level := descDoc.level,
           course := curr.course, duration := curr.duration,
           num_modules := curr.num_modules, tools := curr.tools,
           modules := curr.modules.enum.map
             (fun p => { p.2 with module_id := o.moduleIds p.1 }) }]
      lessons := db.lessons ++ [lout] }, ?_, ?_, ?_, ?_⟩
  · unfold generate_course
    rw [hnew]
    simp only [hdesc, hmod, hles]
  · have h := generate_description_events o.desc data uid
    rw [hdesc] at h
    exact h
  · have h := module_generater_events o.mods
    rw [hmg] at h
    exact h
  · have h := generate_lessons_events o.les
      (curr.modules.enum.map (fun p => { p.2 with module_id := o.moduleIds p.1 })) uid
    rw [hles] at h
    exact h

/-- C1 witness: the ordering theorem applied to a concrete run over an empty
database with trivial oracles. -/
theorem C1_pipeline_order_witness :
    ∃ (descE modE lesE : List Event) (db' : CourseDB),
      generate_course trivOracles ⟨[], [], []⟩ wAddCourse "NEW" =
        (.inserted, db',
         .dbFind .courses :: descE ++ .dbInsert .courses :: modE ++
           .dbInsert .modules :: lesE ++ [.dbInsert .lessons]) ∧
      descE.all (Event.isLlmOf .description) = true ∧
      modE.all (Event.isLlmOf .modulegen) = true ∧
      lesE.all (Event.isLlmOf .lesson) = true :=
  C1_pipeline_order trivOracles ⟨[], [], []⟩ wAddCourse "NEW" rfl rfl

end ContentGen
